import Mathlib

/-!
Shallow embedding of `proteinbenchmark/protein_system.py` and
`proteinbenchmark/force_fields.py`.

Python values stored in the `target_parameters` dictionary are modelled by
the inductive type `Val`.  The filesystem is modelled as the list of paths
for which `exists_and_not_empty` returns true.  Each method of
`ProteinBenchmarkSystem` is translated into a pure function returning the
sequence of external calls it performs (`PBAction`) together with the
exception it raises, if any (`PBError`).
-/

/-! Module-level global default constants imported from
`proteinbenchmark.simulation_parameters` via `import *`.  That module is not
among the translated source files, so each constant is modelled from the
spec as an abstract distinguished value tagged with its own name. -/

/-- A Python value stored in a parameter dictionary.  `defaultC name` stands
for the module-level global constant `name` from `simulation_parameters.py`
(that module is not part of the two translated files, so its constants are
kept abstract); `obsDict` models the nested `observables` dictionary by
mapping each observable name to its `observable_path` string. -/
inductive Val where
  | str : String → Val
  | vnone : Val
  | vbool : Bool → Val
  | defaultC : String → Val
  | abstr : Nat → Val
  | obsDict : List (String × String) → Val
deriving DecidableEq, Repr

/-- Exceptions raised by the orchestration code itself. -/
inductive PBError where
  | valueError : String → PBError
  | keyError : String → PBError
  | typeError : String → PBError
deriving DecidableEq, Repr

/-- A Python dictionary of target parameters, as an association list. -/
def Params : Type := List (String × Val)

/-- `d[k]` lookup returning an option (`None` when the key is absent). -/
def Params.find (tp : Params) (k : String) : Option Val :=
  List.lookup k tp

/-- The Python test `k in d`. -/
def Params.contains (tp : Params) (k : String) : Bool :=
  (tp.find k).isSome

/-- The Python access `d[k]`, raising `KeyError` when the key is absent. -/
def Params.getE (tp : Params) (k : String) : Except PBError Val :=
  match tp.find k with
  | Option.some v => Except.ok v
  | Option.none => Except.error (PBError.keyError k)

/-- The idiom `x = d[k] if k in d else dflt` used throughout the source. -/
def paramOr (tp : Params) (k : String) (dflt : Val) : Val :=
  match tp.find k with
  | Option.some v => v
  | Option.none => dflt

/-- The filesystem: the set of paths for which `exists_and_not_empty`
(from `proteinbenchmark.utilities`) is true. -/
def FS : Type := List String

/-- Modelled from the spec: `exists_and_not_empty` from
`proteinbenchmark/utilities.py` (not under the translated sources) returns
whether the on-disk artifact at `path` exists and is non-empty; the
filesystem model `FS` records exactly those paths. -/
def exists_and_not_empty (fs : FS) (path : String) : Bool :=
  List.contains fs path

/-- `Path(a, b)` from `pathlib` rendered as a string. -/
def pathJoin (a b : String) : String := a ++ "/" ++ b

/-- Modelled from the spec: global default from `simulation_parameters`. -/
def SOLVENT_PADDING : Val := Val.defaultC "SOLVENT_PADDING"

/-- Modelled from the spec: global default from `simulation_parameters`. -/
def DISORDERED_SOLVENT_PADDING : Val := Val.defaultC "DISORDERED_SOLVENT_PADDING"

/-- Modelled from the spec: global default from `simulation_parameters`. -/
def NONBONDED_CUTOFF : Val := Val.defaultC "NONBONDED_CUTOFF"

/-- Modelled from the spec: global default from `simulation_parameters`. -/
def VDW_SWITCH_WIDTH : Val := Val.defaultC "VDW_SWITCH_WIDTH"

/-- Modelled from the spec: global default from `simulation_parameters`. -/
def RESTRAINT_ENERGY_CONSTANT : Val := Val.defaultC "RESTRAINT_ENERGY_CONSTANT"

/-- Modelled from the spec: global default from `simulation_parameters`. -/
def ENERGY_TOLERANCE : Val := Val.defaultC "ENERGY_TOLERANCE"

/-- Modelled from the spec: global default from `simulation_parameters`. -/
def EQUIL_TIMESTEP : Val := Val.defaultC "EQUIL_TIMESTEP"

/-- Modelled from the spec: global default from `simulation_parameters`. -/
def EQUIL_TRAJ_LENGTH : Val := Val.defaultC "EQUIL_TRAJ_LENGTH"

/-- Modelled from the spec: global default from `simulation_parameters`. -/
def EQUIL_FRAME_LENGTH : Val := Val.defaultC "EQUIL_FRAME_LENGTH"

/-- Modelled from the spec: global default from `simulation_parameters`. -/
def EQUIL_LANGEVIN_FRICTION : Val := Val.defaultC "EQUIL_LANGEVIN_FRICTION"

/-- Modelled from the spec: global default from `simulation_parameters`. -/
def EQUIL_BAROSTAT_FREQUENCY : Val := Val.defaultC "EQUIL_BAROSTAT_FREQUENCY"

/-- Modelled from the spec: global default from `simulation_parameters`. -/
def EQUIL_BAROSTAT_CONSTANT : Val := Val.defaultC "EQUIL_BAROSTAT_CONSTANT"

/-- Modelled from the spec: global default from `simulation_parameters`. -/
def EQUIL_THERMOSTAT_CONSTANT : Val := Val.defaultC "EQUIL_THERMOSTAT_CONSTANT"

/-- Modelled from the spec: global default from `simulation_parameters`. -/
def TIMESTEP : Val := Val.defaultC "TIMESTEP"

/-- Modelled from the spec: global default from `simulation_parameters`. -/
def PEPTIDE_TRAJ_LENGTH : Val := Val.defaultC "PEPTIDE_TRAJ_LENGTH"

/-- Modelled from the spec: global default from `simulation_parameters`. -/
def FOLDED_TRAJ_LENGTH : Val := Val.defaultC "FOLDED_TRAJ_LENGTH"

/-- Modelled from the spec: global default from `simulation_parameters`. -/
def DISORDERED_TRAJ_LENGTH : Val := Val.defaultC "DISORDERED_TRAJ_LENGTH"

/-- Modelled from the spec: global default from `simulation_parameters`. -/
def FRAME_LENGTH : Val := Val.defaultC "FRAME_LENGTH"

/-- Modelled from the spec: global default from `simulation_parameters`. -/
def LANGEVIN_FRICTION : Val := Val.defaultC "LANGEVIN_FRICTION"

/-- Modelled from the spec: global default from `simulation_parameters`. -/
def BAROSTAT_FREQUENCY : Val := Val.defaultC "BAROSTAT_FREQUENCY"

/-- Modelled from the spec: global default from `simulation_parameters`. -/
def CHECKPOINT_LENGTH : Val := Val.defaultC "CHECKPOINT_LENGTH"

/-- Modelled from the spec: global default from `simulation_parameters`. -/
def SAVE_STATE_LENGTH : Val := Val.defaultC "SAVE_STATE_LENGTH"

/-- Modelled from the spec: global default from `simulation_parameters`. -/
def BAROSTAT_CONSTANT : Val := Val.defaultC "BAROSTAT_CONSTANT"

/-- Modelled from the spec: global default from `simulation_parameters`. -/
def THERMOSTAT_CONSTANT : Val := Val.defaultC "THERMOSTAT_CONSTANT"

/-- The constructor arguments of `ProteinBenchmarkSystem.__init__` together
with the attributes it stores unchanged. -/
structure PBSystem where
  result_directory : String
  target_name : String
  target_parameters : Params
  force_field : String
  water_model : String
  force_field_file : String
  water_model_file : Option String
  sim_platform : String
  gmx_executable : Option String

/-- `self.system_name = f"{target_name}-{force_field_name}"`. -/
def PBSystem.system_name (s : PBSystem) : String :=
  s.target_name ++ "-" ++ s.force_field

/-- `self.base_path = Path(result_directory, self.system_name)`. -/
def PBSystem.base_path (s : PBSystem) : String :=
  pathJoin s.result_directory s.system_name

/-- `self.setup_dir = Path(self.base_path, "setup")`. -/
def PBSystem.setup_dir (s : PBSystem) : String :=
  pathJoin s.base_path "setup"

/-- `self.setup_prefix = Path(self.setup_dir, self.system_name)`. -/
def PBSystem.setup_pfx (s : PBSystem) : String :=
  pathJoin s.setup_dir s.system_name

/-- `self.initial_pdb = f"{self.setup_prefix}-initial.pdb"`. -/
def PBSystem.initial_pdb (s : PBSystem) : String :=
  s.setup_pfx ++ "-initial.pdb"

/-- `self.protonated_pdb = f"{self.setup_prefix}-protonated.pdb"`. -/
def PBSystem.protonated_pdb (s : PBSystem) : String :=
  s.setup_pfx ++ "-protonated.pdb"

/-- `self.minimized_pdb = f"{self.setup_prefix}-minimized.pdb"`. -/
def PBSystem.minimized_pdb (s : PBSystem) : String :=
  s.setup_pfx ++ "-minimized.pdb"

/-- `self.openmm_system = f"{self.setup_prefix}-openmm-system.xml"`. -/
def PBSystem.openmm_system (s : PBSystem) : String :=
  s.setup_pfx ++ "-openmm-system.xml"

/-- The thermodynamic-state check of `__init__`: the first quantity of the
list missing from `target_parameters` raises a `ValueError`. -/
def requireQuantities (target_name : String) (tp : Params) :
    List String → Except PBError Unit
  | [] => Except.ok ()
  | q :: rest =>
    if tp.contains q then requireQuantities target_name tp rest
    else
      Except.error (PBError.valueError
        ("benchmark_targets for target " ++ target_name ++ " must contain \"" ++ q ++ "\""))

/-- The validation performed by `ProteinBenchmarkSystem.__init__` on the
target parameters (lines 74-80). -/
def initCheck (target_name : String) (tp : Params) : Except PBError Unit :=
  requireQuantities target_name tp ["pressure", "temperature", "ph", "ionic_strength"]

/-- The keyword arguments of the `OpenMMSimulation` constructor as used in
`run_simulations` (`save_state_pfx` renders the `save_state_prefix`
argument). -/
structure OpenMMSimConfig where
  openmm_system_file : String
  initial_pdb_file : String
  dcd_reporter_file : String
  state_reporter_file : String
  checkpoint_file : String
  save_state_pfx : String
  temperature : Val
  pressure : Val
  langevin_friction : Val
  barostat_frequency : Val
  timestep : Val
  traj_length : Val
  frame_length : Val
  checkpoint_length : Val
  save_state_length : Val
deriving DecidableEq, Repr

/-- The keyword arguments of the `GMXSimulation` constructor as used in
`run_simulations` (`setup_pfx`, `save_state_pfx` and `load_state_pfx` render
the `setup_prefix`, `save_state_prefix` and `load_state_prefix` arguments;
`load_state_pfx` is `Option.none` when the argument is not passed). -/
structure GMXSimConfig where
  gmx_executable : Option String
  initial_pdb_file : String
  save_state_pfx : String
  setup_pfx : String
  temperature : Val
  pressure : Val
  barostat_constant : Val
  thermostat_constant : Val
  timestep : Val
  traj_length : Val
  frame_length : Val
  restraints_present : Val
  load_state_pfx : Option String
deriving DecidableEq, Repr

/-- One external call performed by a `ProteinBenchmarkSystem` method, with
the arguments it received.  In `build_initial_coordinates` the optional
arguments are `Option.none` when not passed; in `minimize` the
`gmx_executable` argument is `Option.none` when not passed. -/
inductive PBAction where
  | writeInitialPdb (dst : String)
  | build_initial_coordinates (build_method : Val) (ph : Val)
      (initial_pdb protonated_pdb : String)
      (aa_sequence nterm_cap cterm_cap : Option Val)
  | solvate (ionic_strength nonbonded_cutoff vdw_switch_width : Val)
      (protonated_pdb_file solvated_pdb_file openmm_system_xml : String)
      (water_model : String) (force_field_file : String)
      (water_model_file : Option String) (solvent_padding : Val)
      (setup_pfx sim_platform : String)
  | minimize (restraint_energy_constant : Val)
      (openmm_system_xml solvated_pdb_file minimized_pdb_file : String)
      (setup_pfx sim_platform : String) (gmx_executable : Option String)
  | start_from_pdb (cfg : OpenMMSimConfig)
  | start_from_save_state (cfg : OpenMMSimConfig) (save_state_file : String)
  | resume_from_checkpoint (cfg : OpenMMSimConfig)
  | gmx_run (cfg : GMXSimConfig)
  | gmx_start_from_save_state (cfg : GMXSimConfig) (checkpoint_file : String)
  | align_trajectory (topology_path trajectory_path output_pfx
      output_selection align_selection reference_path : String)
  | measure_dihedrals (topology_path trajectory_path : String)
      (frame_length : Val) (output_path : String)
  | merge_csvs (path : String)
  | measure_h_bond_geometries (topology_path trajectory_path : String)
      (frame_length : Val) (output_path : String)
  | assign_dihedral_clusters (dihedrals_path output_path : String)
  | compute_scalar_couplings (observable_path dihedrals_path output_path : String)
  | compute_h_bond_scalar_couplings
      (observable_path h_bond_geometries_path output_path : String)
  | compute_fraction_helix (observable_path dihedral_clusters_path
      h_bond_geometries_path output_path : String)
deriving DecidableEq, Repr

/-- The observable behaviour of one method call: the external calls it made,
in order, and the exception it raised (if any).  On an exception the calls
already made are kept and no further call happens. -/
structure Outcome where
  actions : List PBAction
  error : Option PBError
deriving Repr

/-- Sequencing of two code blocks: the second runs only when the first did
not raise. -/
def Outcome.andThen : Outcome → Outcome → Outcome
  | ⟨acts, Option.some e⟩, _ => ⟨acts, Option.some e⟩
  | ⟨acts, Option.none⟩, ⟨acts2, e2⟩ => ⟨acts ++ acts2, e2⟩

/-- View a code block written in the `Except` monad as an `Outcome`. -/
def runStage (e : Except PBError (List PBAction)) : Outcome :=
  match e with
  | Except.ok acts => ⟨acts, Option.none⟩
  | Except.error err => ⟨[], Option.some err⟩

/-- The first stage of `setup` (lines 107-153): build initial coordinates
when the protonated PDB is missing or empty. -/
def buildStage (s : PBSystem) (fs : FS) : Except PBError (List PBAction) :=
  if !(exists_and_not_empty fs s.protonated_pdb) then
    if s.target_parameters.contains "initial_pdb" then do
      let ph ← s.target_parameters.getE "ph"
      Except.ok
        [PBAction.writeInitialPdb s.initial_pdb,
         PBAction.build_initial_coordinates (Val.str "pdb") ph
           s.initial_pdb s.protonated_pdb Option.none Option.none Option.none]
    else if s.target_parameters.contains "aa_sequence" then do
      let build_method := paramOr s.target_parameters "build_method" (Val.str "extended")
      let nterm_cap := Params.find s.target_parameters "nterm_cap"
      let cterm_cap := Params.find s.target_parameters "cterm_cap"
      let ph ← s.target_parameters.getE "ph"
      let aa_sequence ← s.target_parameters.getE "aa_sequence"
      Except.ok
        [PBAction.build_initial_coordinates build_method ph
           s.initial_pdb s.protonated_pdb (Option.some aa_sequence) nterm_cap cterm_cap]
    else
      Except.error (PBError.valueError
        ("benchmark_targets for target " ++ s.target_name ++
         " must contain one of \"aa_sequence\" or \"initial_pdb\""))
  else
    Except.ok []

/-- The second stage of `setup` (lines 156-190): solvate and construct the
backend system when the backend-specific artifact is missing or empty. -/
def solvateStage (s : PBSystem) (fs : FS) : Except PBError (List PBAction) :=
  if (s.sim_platform != "gmx" && !(exists_and_not_empty fs s.openmm_system))
      || (s.sim_platform == "gmx"
          && !(exists_and_not_empty fs (s.setup_pfx ++ ".top"))) then do
    let solvent_padding ←
      if s.target_parameters.contains "solvent_padding" then
        s.target_parameters.getE "solvent_padding"
      else do
        let target_type ← s.target_parameters.getE "target_type"
        if target_type != Val.str "folded" then
          Except.ok DISORDERED_SOLVENT_PADDING
        else
          Except.ok SOLVENT_PADDING
    let nonbonded_cutoff := paramOr s.target_parameters "nonbonded_cutoff" NONBONDED_CUTOFF
    let vdw_switch_width := paramOr s.target_parameters "vdw_switch_width" VDW_SWITCH_WIDTH
    let ionic_strength ← s.target_parameters.getE "ionic_strength"
    Except.ok
      [PBAction.solvate ionic_strength nonbonded_cutoff vdw_switch_width
         s.protonated_pdb (s.setup_pfx ++ "-solvated.pdb") s.openmm_system
         s.water_model s.force_field_file s.water_model_file solvent_padding
         s.setup_pfx s.sim_platform]
  else
    Except.ok []

/-- The third stage of `setup` (lines 194-232): minimize energy when the
backend-specific minimization artifact is missing or empty. -/
def minimizeStage (s : PBSystem) (fs : FS) : Except PBError (List PBAction) :=
  if s.sim_platform != "gmx" && !(exists_and_not_empty fs s.minimized_pdb) then
    let restraint_energy_constant :=
      paramOr s.target_parameters "restraint_energy_constant" RESTRAINT_ENERGY_CONSTANT
    Except.ok
      [PBAction.minimize restraint_energy_constant s.openmm_system
         (s.setup_pfx ++ "-solvated.pdb") s.minimized_pdb
         s.setup_pfx s.sim_platform Option.none]
  else if s.sim_platform == "gmx"
      && !(exists_and_not_empty fs (s.setup_dir ++ "/confout.gro")) then
    let energy_tolerance :=
      paramOr s.target_parameters "energy_tolerance" ENERGY_TOLERANCE
    Except.ok
      [PBAction.minimize energy_tolerance "none"
         (s.setup_pfx ++ "-solvated.pdb") s.minimized_pdb
         s.setup_pfx s.sim_platform s.gmx_executable]
  else
    Except.ok []

/-- `ProteinBenchmarkSystem.setup` (lines 95-233): the three stages in
source order. -/
def PBSystem.setup (s : PBSystem) (fs : FS) : Outcome :=
  ((runStage (buildStage s fs)).andThen
    (runStage (solvateStage s fs))).andThen
      (runStage (minimizeStage s fs))

/-- `Path(replica_dir, self.system_name)` where
`replica_dir = Path(self.base_path, f"replica-{replica:d}")`. -/
def PBSystem.replica_pfx (s : PBSystem) (replica : Nat) : String :=
  pathJoin (pathJoin s.base_path ("replica-" ++ toString replica)) s.system_name

/-- `equil_prefix = f"{replica_prefix}-equilibration"`. -/
def PBSystem.equil_pfx (s : PBSystem) (replica : Nat) : String :=
  s.replica_pfx replica ++ "-equilibration"

/-- `prod_prefix = f"{replica_prefix}-production"`. -/
def PBSystem.prod_pfx (s : PBSystem) (replica : Nat) : String :=
  s.replica_pfx replica ++ "-production"

/-- The equilibration block of `run_simulations` (lines 257-351): run NPT
equilibration when the equilibrated-state artifact is missing or empty. -/
def equilStage (s : PBSystem) (fs : FS)
    (equilPfx setupPfx equilibrated_state : String) :
    Except PBError (List PBAction) :=
  if !(exists_and_not_empty fs equilibrated_state) then do
    let equil_timestep := paramOr s.target_parameters "equil_timestep" EQUIL_TIMESTEP
    let equil_traj_length :=
      paramOr s.target_parameters "equil_traj_length" EQUIL_TRAJ_LENGTH
    let equil_frame_length :=
      paramOr s.target_parameters "equil_frame_length" EQUIL_FRAME_LENGTH
    if s.sim_platform != "gmx" then do
      let equil_langevin_friction :=
        paramOr s.target_parameters "equil_langevin_friction" EQUIL_LANGEVIN_FRICTION
      let equil_barostat_frequency :=
        paramOr s.target_parameters "equil_barostat_frequency" EQUIL_BAROSTAT_FREQUENCY
      let temperature ← s.target_parameters.getE "temperature"
      let pressure ← s.target_parameters.getE "pressure"
      Except.ok [PBAction.start_from_pdb
        { openmm_system_file := s.openmm_system
          initial_pdb_file := s.minimized_pdb
          dcd_reporter_file := equilPfx ++ ".dcd"
          state_reporter_file := equilPfx ++ ".out"
          checkpoint_file := equilPfx ++ ".chk"
          save_state_pfx := equilPfx
          temperature := temperature
          pressure := pressure
          langevin_friction := equil_langevin_friction
          barostat_frequency := equil_barostat_frequency
          timestep := equil_timestep
          traj_length := equil_traj_length
          frame_length := equil_frame_length
          checkpoint_length := equil_traj_length
          save_state_length := equil_traj_length }]
    else do
      let equil_barostat_constant :=
        paramOr s.target_parameters "equil_barostat_constant" EQUIL_BAROSTAT_CONSTANT
      let equil_thermostat_constant :=
        paramOr s.target_parameters "equil_thermostat_constant" EQUIL_THERMOSTAT_CONSTANT
      let temperature ← s.target_parameters.getE "temperature"
      let pressure ← s.target_parameters.getE "pressure"
      Except.ok [PBAction.gmx_run
        { gmx_executable := s.gmx_executable
          initial_pdb_file := s.minimized_pdb
          save_state_pfx := equilPfx
          setup_pfx := setupPfx
          temperature := temperature
          pressure := pressure
          barostat_constant := equil_barostat_constant
          thermostat_constant := equil_thermostat_constant
          timestep := equil_timestep
          traj_length := equil_traj_length
          frame_length := equil_frame_length
          restraints_present := Val.str "NPT"
          load_state_pfx := Option.none }]
  else
    Except.ok []

/-- The trajectory-length selection of `run_simulations` (lines 361-374):
the `traj_length` override when present, otherwise the default selected by
`target_type`, otherwise a `ValueError`. -/
def resolveTrajLength (s : PBSystem) : Except PBError Val :=
  if s.target_parameters.contains "traj_length" then
    s.target_parameters.getE "traj_length"
  else do
    let target_type ← s.target_parameters.getE "target_type"
    if target_type == Val.str "peptide" then
      Except.ok PEPTIDE_TRAJ_LENGTH
    else if target_type == Val.str "folded" then
      Except.ok FOLDED_TRAJ_LENGTH
    else if target_type == Val.str "disordered" then
      Except.ok DISORDERED_TRAJ_LENGTH
    else
      Except.error (PBError.valueError
        ("benchmark_targets for target " ++ s.target_name ++
         " must contain \"traj_length\" or \"target_type\" must be one of " ++
         "\"peptide\", \"folded\", or \"disordered\"."))

/-- The production block of `run_simulations` (lines 353-477): derive the
production parameters, construct the backend simulation, and either start
fresh (from the equilibrated state) or resume from the production
checkpoint. -/
def productionStage (s : PBSystem) (fs : FS)
    (prodPfx setupPfx equilPfx equilibrated_state : String) :
    Except PBError (List PBAction) := do
  let timestep := paramOr s.target_parameters "timestep" TIMESTEP
  let traj_length ← resolveTrajLength s
  let frame_length := paramOr s.target_parameters "frame_length" FRAME_LENGTH
  if s.sim_platform != "gmx" then do
    let langevin_friction :=
      paramOr s.target_parameters "langevin_friction" LANGEVIN_FRICTION
    let barostat_frequency :=
      paramOr s.target_parameters "barostat_frequency" BAROSTAT_FREQUENCY
    let checkpoint_length :=
      paramOr s.target_parameters "checkpoint_length" CHECKPOINT_LENGTH
    let save_state_length :=
      paramOr s.target_parameters "save_state_length" SAVE_STATE_LENGTH
    let temperature ← s.target_parameters.getE "temperature"
    let pressure ← s.target_parameters.getE "pressure"
    let production_checkpoint := prodPfx ++ ".chk"
    let cfg : OpenMMSimConfig :=
      { openmm_system_file := s.openmm_system
        initial_pdb_file := s.minimized_pdb
        dcd_reporter_file := prodPfx ++ ".dcd"
        state_reporter_file := prodPfx ++ ".out"
        checkpoint_file := production_checkpoint
        save_state_pfx := prodPfx
        temperature := temperature
        pressure := pressure
        langevin_friction := langevin_friction
        barostat_frequency := barostat_frequency
        timestep := timestep
        traj_length := traj_length
        frame_length := frame_length
        checkpoint_length := checkpoint_length
        save_state_length := save_state_length }
    if !(exists_and_not_empty fs production_checkpoint) then
      Except.ok [PBAction.start_from_save_state cfg equilibrated_state]
    else
      Except.ok [PBAction.resume_from_checkpoint cfg]
  else do
    let barostat_constant :=
      paramOr s.target_parameters "barostat_constant" BAROSTAT_CONSTANT
    let thermostat_constant :=
      paramOr s.target_parameters "thermostat_constant" THERMOSTAT_CONSTANT
    let temperature ← s.target_parameters.getE "temperature"
    let pressure ← s.target_parameters.getE "pressure"
    let production_checkpoint := prodPfx ++ ".cpt"
    let cfg : GMXSimConfig :=
      { gmx_executable := s.gmx_executable
        initial_pdb_file := s.minimized_pdb
        setup_pfx := setupPfx
        save_state_pfx := prodPfx
        temperature := temperature
        pressure := pressure
        barostat_constant := barostat_constant
        thermostat_constant := thermostat_constant
        timestep := timestep
        traj_length := traj_length
        frame_length := frame_length
        restraints_present := Val.vbool false
        load_state_pfx := Option.some equilPfx }
    if !(exists_and_not_empty fs production_checkpoint) then
      Except.ok [PBAction.gmx_run cfg]
    else
      Except.ok [PBAction.gmx_start_from_save_state cfg production_checkpoint]

/-- `ProteinBenchmarkSystem.run_simulations` (lines 235-477): the
equilibration block followed by the production block, with the
platform-dependent equilibrated-state artifact of lines 249-253. -/
def PBSystem.run_simulations (s : PBSystem) (replica : Nat) (fs : FS) : Outcome :=
  let setupPfx := pathJoin (pathJoin s.base_path "setup") s.system_name
  let equilPfx := s.equil_pfx replica
  let prodPfx := s.prod_pfx replica
  let equilibrated_state :=
    if s.sim_platform != "gmx" then equilPfx ++ "-1.xml" else equilPfx ++ ".gro"
  (runStage (equilStage s fs equilPfx setupPfx equilibrated_state)).andThen
    (runStage (productionStage s fs prodPfx setupPfx equilPfx equilibrated_state))

/-- `Path(analysis_dir, f"{self.system_name}-{replica}")`. -/
def PBSystem.analysis_pfx (s : PBSystem) (replica : Nat) : String :=
  pathJoin (pathJoin s.base_path "analysis") (s.system_name ++ "-" ++ toString replica)

/-- The measurement blocks of `analyze_observables` (lines 495-563): align
the trajectory, measure dihedrals and hydrogen-bond geometries, and assign
dihedral clusters, each guarded by its artifact.  `dihedral_fragments` and
`h_bond_fragments` are the fragment indices returned by the external
analysis calls; a `merge_csvs` call follows when they are positive. -/
def measurementStages (s : PBSystem) (replica : Nat) (fs : FS)
    (dihedral_fragments h_bond_fragments : Int) : List PBAction :=
  let analysisPfx := s.analysis_pfx replica
  let reimaged_topology := analysisPfx ++ "-reimaged.pdb"
  let reimaged_trajectory := analysisPfx ++ "-reimaged.dcd"
  let frame_length := paramOr s.target_parameters "frame_length" FRAME_LENGTH
  let alignActs :=
    if !(exists_and_not_empty fs reimaged_topology) then
      let replica_dir := pathJoin s.base_path ("replica-" ++ toString replica)
      let replicaPfx := pathJoin replica_dir s.system_name
      if s.sim_platform != "gmx" then
        [PBAction.align_trajectory s.minimized_pdb (replicaPfx ++ "-production.dcd")
           (analysisPfx ++ "-reimaged") "chainid == \x22A\x22" "name == \x22CA\x22"
           s.initial_pdb]
      else
        [PBAction.align_trajectory (replica_dir ++ "/confout.gro")
           (replica_dir ++ "/traj.xtc") (analysisPfx ++ "-reimaged")
           "resname != \x22HOH\x22 && resname != \x22NA\x22" "name == \x22CA\x22"
           s.initial_pdb]
    else []
  let dihedrals := analysisPfx ++ "-dihedrals.dat"
  let dihedralActs :=
    if !(exists_and_not_empty fs dihedrals) then
      [PBAction.measure_dihedrals reimaged_topology reimaged_trajectory
         frame_length dihedrals] ++
      (if dihedral_fragments > 0 then [PBAction.merge_csvs dihedrals] else [])
    else []
  let h_bond_geometries := analysisPfx ++ "-hydrogen-bond-geometries.dat"
  let hBondActs :=
    if !(exists_and_not_empty fs h_bond_geometries) then
      [PBAction.measure_h_bond_geometries s.protonated_pdb reimaged_trajectory
         frame_length h_bond_geometries] ++
      (if h_bond_fragments > 0 then [PBAction.merge_csvs h_bond_geometries] else [])
    else []
  let dihedral_clusters := analysisPfx ++ "-dihedral-clusters.dat"
  let clusterActs :=
    if !(exists_and_not_empty fs dihedral_clusters) then
      [PBAction.assign_dihedral_clusters dihedrals dihedral_clusters]
    else []
  alignActs ++ dihedralActs ++ hBondActs ++ clusterActs

/-- The observable blocks of `analyze_observables` (lines 565-619): read
`target_parameters["observables"]` and compute each requested observable
whose artifact is missing or empty. -/
def observablesStage (s : PBSystem) (replica : Nat) (fs : FS) :
    Except PBError (List PBAction) := do
  let analysisPfx := s.analysis_pfx replica
  let dihedrals := analysisPfx ++ "-dihedrals.dat"
  let h_bond_geometries := analysisPfx ++ "-hydrogen-bond-geometries.dat"
  let dihedral_clusters := analysisPfx ++ "-dihedral-clusters.dat"
  let target_observables ← s.target_parameters.getE "observables"
  match target_observables with
  | Val.obsDict obs =>
    let scalar_couplings := analysisPfx ++ "-scalar-couplings.dat"
    let scActs :=
      match List.lookup "scalar_couplings" obs with
      | Option.some data =>
        if !(exists_and_not_empty fs scalar_couplings) then
          [PBAction.compute_scalar_couplings data dihedrals scalar_couplings]
        else []
      | Option.none => []
    let h_bond_scalar_couplings := analysisPfx ++ "-h-bond-scalar-couplings.dat"
    let hbActs :=
      match List.lookup "h_bond_scalar_couplings" obs with
      | Option.some data =>
        if !(exists_and_not_empty fs h_bond_scalar_couplings) then
          [PBAction.compute_h_bond_scalar_couplings data h_bond_geometries
             h_bond_scalar_couplings]
        else []
      | Option.none => []
    let fraction_helix := analysisPfx ++ "-fraction-helix.dat"
    let fhActs :=
      match List.lookup "fraction_helix" obs with
      | Option.some data =>
        if !(exists_and_not_empty fs fraction_helix) then
          [PBAction.compute_fraction_helix data dihedral_clusters
             h_bond_geometries fraction_helix]
        else []
      | Option.none => []
    Except.ok (scActs ++ hbActs ++ fhActs)
  | _ => Except.error (PBError.typeError "observables is not a dictionary")

/-- `ProteinBenchmarkSystem.analyze_observables` (lines 479-619): the
measurement blocks in order, then the observable blocks. -/
def PBSystem.analyze_observables (s : PBSystem) (replica : Nat) (fs : FS)
    (dihedral_fragments h_bond_fragments : Int) : Outcome :=
  (Outcome.mk (measurementStages s replica fs dihedral_fragments h_bond_fragments)
    Option.none).andThen
      (runStage (observablesStage s replica fs))

/-- Modelled from the spec: `package_data_directory` from
`proteinbenchmark/utilities.py` (not under the translated sources), the
root of the package data tree; its concrete value is irrelevant here. -/
def package_data_directory : String := "proteinbenchmark/data"

/-- `ff_directory = Path(package_data_directory, "force-fields")`. -/
def ff_directory : String := pathJoin package_data_directory "force-fields"

/-- One entry of the `force_fields` dictionary of `force_fields.py`.  The
`water_model_file` field is `Option.none` when the key is absent from the
literal, `Option.some Option.none` when the literal declares it as `None`,
and `Option.some (Option.some p)` when it declares the file `p`. -/
structure FFEntry where
  force_field_file : String
  water_model : String
  water_model_file : Option (Option String)
deriving DecidableEq, Repr

/-- The `force_fields` dictionary literal of `force_fields.py`
(lines 10-121), before the water-model-file loop runs. -/
def force_fields_initial : List (String × FFEntry) :=
  [("ff14sb-opc",
    { force_field_file := pathJoin ff_directory "nerenberg_ff14sb_c0ala_c0gly_c0val.xml"
      water_model := "opc", water_model_file := Option.none }),
   ("ff14sb-opc3",
    { force_field_file := pathJoin ff_directory "nerenberg_ff14sb_c0ala_c0gly_c0val.xml"
      water_model := "opc3", water_model_file := Option.none }),
   ("ff14sb-tian-opc",
    { force_field_file := pathJoin ff_directory "tian_ff14sb_c0ala.xml"
      water_model := "opc", water_model_file := Option.none }),
   ("ff14sb-tian-opc3",
    { force_field_file := pathJoin ff_directory "tian_ff14sb_c0ala.xml"
      water_model := "opc3", water_model_file := Option.none }),
   ("ff14sb-tian-tip3p",
    { force_field_file := pathJoin ff_directory "tian_ff14sb_c0ala.xml"
      water_model := "tip3p", water_model_file := Option.none }),
   ("ff14sb-tian-tip3p-fb",
    { force_field_file := pathJoin ff_directory "tian_ff14sb_c0ala.xml"
      water_model := "tip3p-fb", water_model_file := Option.none }),
   ("ff14sb-tian-tip4p-fb",
    { force_field_file := pathJoin ff_directory "tian_ff14sb_c0ala.xml"
      water_model := "tip4p-fb", water_model_file := Option.none }),
   ("ff14sb-tip3p",
    { force_field_file := pathJoin ff_directory "nerenberg_ff14sb_c0ala_c0gly_c0val.xml"
      water_model := "tip3p", water_model_file := Option.none }),
   ("ff14sb-tip3p-fb",
    { force_field_file := pathJoin ff_directory "nerenberg_ff14sb_c0ala_c0gly_c0val.xml"
      water_model := "tip3p-fb", water_model_file := Option.none }),
   ("ff14sb-tip4p-fb",
    { force_field_file := pathJoin ff_directory "nerenberg_ff14sb_c0ala_c0gly_c0val.xml"
      water_model := "tip4p-fb", water_model_file := Option.none }),
   ("null-0.0.1-tip3p",
    { force_field_file := pathJoin ff_directory "Protein-Null-0.0.1.offxml"
      water_model := "tip3p", water_model_file := Option.some Option.none }),
   ("null-0.0.2-opc",
    { force_field_file := pathJoin ff_directory "Protein-Null-0.0.2-NH2.offxml"
      water_model := "opc", water_model_file := Option.some (Option.some "opc-1.0.0.offxml") }),
   ("null-0.0.2-opc3",
    { force_field_file := pathJoin ff_directory "Protein-Null-0.0.2-NH2.offxml"
      water_model := "opc3"
      water_model_file := Option.some (Option.some (pathJoin ff_directory "opc3-1.0.0.offxml")) }),
   ("null-0.0.2-tip3p",
    { force_field_file := pathJoin ff_directory "Protein-Null-0.0.2-NH2.offxml"
      water_model := "tip3p", water_model_file := Option.some Option.none }),
   ("null-0.0.2-tip3p-fb",
    { force_field_file := pathJoin ff_directory "Protein-Null-0.0.2-NH2.offxml"
      water_model := "tip3p-fb"
      water_model_file := Option.some (Option.some (pathJoin ff_directory "tip3p_fb-1.1.0.offxml")) }),
   ("null-0.0.2-tip4p-fb",
    { force_field_file := pathJoin ff_directory "Protein-Null-0.0.2-NH2.offxml"
      water_model := "tip4p-fb"
      water_model_file := Option.some (Option.some (pathJoin ff_directory "tip4p_fb-1.0.0.offxml")) }),
   ("specific-0.0.1-tip3p",
    { force_field_file := pathJoin ff_directory "Protein-Specific-0.0.1.offxml"
      water_model := "tip3p", water_model_file := Option.some Option.none }),
   ("specific-0.0.2-opc",
    { force_field_file := pathJoin ff_directory "Protein-Specific-0.0.2-NH2.offxml"
      water_model := "opc", water_model_file := Option.some (Option.some "opc-1.0.0.offxml") }),
   ("specific-0.0.2-opc3",
    { force_field_file := pathJoin ff_directory "Protein-Specific-0.0.2-NH2.offxml"
      water_model := "opc3"
      water_model_file := Option.some (Option.some (pathJoin ff_directory "opc3-1.0.0.offxml")) }),
   ("specific-0.0.2-tip3p",
    { force_field_file := pathJoin ff_directory "Protein-Specific-0.0.2-NH2.offxml"
      water_model := "tip3p", water_model_file := Option.some Option.none }),
   ("specific-0.0.2-tip3p-fb",
    { force_field_file := pathJoin ff_directory "Protein-Specific-0.0.2-NH2.offxml"
      water_model := "tip3p-fb"
      water_model_file := Option.some (Option.some (pathJoin ff_directory "tip3p_fb-1.1.0.offxml")) }),
   ("specific-0.0.2-tip4p-fb",
    { force_field_file := pathJoin ff_directory "Protein-Specific-0.0.2-NH2.offxml"
      water_model := "tip4p-fb"
      water_model_file := Option.some (Option.some (pathJoin ff_directory "tip4p_fb-1.0.0.offxml")) })]

/-- The `water_model_files` dictionary of `force_fields.py` (lines 124-130). -/
def water_model_files : List (String × String) :=
  [("tip3p", "amber/tip3p_standard.xml"),
   ("opc3", pathJoin ff_directory "openmm-opc3.xml"),
   ("opc", "amber/opc_standard.xml"),
   ("tip3p-fb", pathJoin ff_directory "openmm-tip3p-fb.xml"),
   ("tip4p-fb", pathJoin ff_directory "openmm-tip4p-fb.xml")]

/-- The body of the loop of lines 132-135 applied to one entry: when the
`water_model_file` key is absent, set it to
`water_model_files[entry["water_model"]]` (a `KeyError` when the water
model is not in the table). -/
def resolveEntry (e : FFEntry) : Except PBError FFEntry :=
  match e.water_model_file with
  | Option.some _ => Except.ok e
  | Option.none =>
    match List.lookup e.water_model water_model_files with
    | Option.some f =>
      Except.ok { e with water_model_file := Option.some (Option.some f) }
    | Option.none => Except.error (PBError.keyError e.water_model)

/-- The loop of lines 132-135 over the whole dictionary, in order. -/
def resolveAll : List (String × FFEntry) → Except PBError (List (String × FFEntry))
  | [] => Except.ok []
  | (n, e) :: rest => do
    let e2 ← resolveEntry e
    let rest2 ← resolveAll rest
    Except.ok ((n, e2) :: rest2)

/-- The `force_fields` dictionary after module initialization of
`force_fields.py` completes. -/
def force_fields_final : Except PBError (List (String × FFEntry)) :=
  resolveAll force_fields_initial

/-- Actions belonging to the build-initial-coordinates stage. -/
def PBAction.isBuildStage : PBAction → Bool
  | PBAction.writeInitialPdb _ => true
  | PBAction.build_initial_coordinates .. => true
  | _ => false

/-- An invocation of `build_initial_coordinates` itself. -/
def PBAction.isBuildCall : PBAction → Bool
  | PBAction.build_initial_coordinates .. => true
  | _ => false

/-- An invocation of `solvate`. -/
def PBAction.isSolvate : PBAction → Bool
  | PBAction.solvate .. => true
  | _ => false

/-- An invocation of `minimize`. -/
def PBAction.isMinimize : PBAction → Bool
  | PBAction.minimize .. => true
  | _ => false

/-- A concrete target-parameter dictionary used by the witnesses. -/
def tpW : Params :=
  [("pressure", Val.abstr 0), ("temperature", Val.abstr 1), ("ph", Val.abstr 2),
   ("ionic_strength", Val.abstr 3), ("aa_sequence", Val.str "AAAAA"),
   ("target_type", Val.str "peptide")]

/-- A concrete benchmark system on the OpenMM platform used by the
witnesses. -/
def sW : PBSystem :=
  { result_directory := "results", target_name := "ala5",
    target_parameters := tpW, force_field := "ff14sb-opc",
    water_model := "opc", force_field_file := "ff.xml",
    water_model_file := Option.none, sim_platform := "open_mm",
    gmx_executable := Option.none }

/-- A concrete benchmark system on the GROMACS platform used by the
witnesses. -/
def sWgmx : PBSystem :=
  { sW with sim_platform := "gmx", gmx_executable := Option.some "gmx" }

/-- An equilibration run: an OpenMM `start_from_pdb` or a `GMXSimulation`
run with `restraints_present='NPT'`. -/
def PBAction.isEquilibration : PBAction → Bool
  | PBAction.start_from_pdb _ => true
  | PBAction.gmx_run cfg => cfg.restraints_present == Val.str "NPT"
  | _ => false

/-- An OpenMM production start from a given serialized save state. -/
def PBAction.isStartFromSaveState (file : String) : PBAction → Bool
  | PBAction.start_from_save_state _ f => f == file
  | _ => false

/-- An OpenMM production resume from its checkpoint. -/
def PBAction.isResume : PBAction → Bool
  | PBAction.resume_from_checkpoint _ => true
  | _ => false

/-- A fresh GROMACS production run (`restraints_present=False`). -/
def PBAction.isGmxFreshRun : PBAction → Bool
  | PBAction.gmx_run cfg => cfg.restraints_present == Val.vbool false
  | _ => false

/-- A GROMACS production start from a given checkpoint file. -/
def PBAction.isGmxStartFromSaveState (file : String) : PBAction → Bool
  | PBAction.gmx_start_from_save_state _ f => f == file
  | _ => false

/-- A production run: an OpenMM production start or resume, a fresh GROMACS
run without restraints, or a GROMACS start from a checkpoint. -/
def PBAction.isProduction : PBAction → Bool
  | PBAction.start_from_save_state .. => true
  | PBAction.resume_from_checkpoint _ => true
  | PBAction.gmx_start_from_save_state .. => true
  | PBAction.gmx_run cfg => cfg.restraints_present == Val.vbool false
  | _ => false

/-- The `traj_length` argument received by the simulation constructed in an
action, when any. -/
def PBAction.trajLength : PBAction → Option Val
  | PBAction.start_from_pdb cfg => Option.some cfg.traj_length
  | PBAction.start_from_save_state cfg _ => Option.some cfg.traj_length
  | PBAction.resume_from_checkpoint cfg => Option.some cfg.traj_length
  | PBAction.gmx_run cfg => Option.some cfg.traj_length
  | PBAction.gmx_start_from_save_state cfg _ => Option.some cfg.traj_length
  | _ => Option.none

/-- The `restraint_energy_constant` and `openmm_system_xml` arguments of a
`minimize` call, when the action is one. -/
def PBAction.minimizeArgs : PBAction → Option (Val × String)
  | PBAction.minimize r x _ _ _ _ _ => Option.some (r, x)
  | _ => Option.none

/-- The filesystem containing all four measurement artifacts of `sW`,
replica 1. -/
def fsW10 : FS :=
  ["results/ala5-ff14sb-opc/analysis/ala5-ff14sb-opc-1-reimaged.pdb",
   "results/ala5-ff14sb-opc/analysis/ala5-ff14sb-opc-1-dihedrals.dat",
   "results/ala5-ff14sb-opc/analysis/ala5-ff14sb-opc-1-hydrogen-bond-geometries.dat",
   "results/ala5-ff14sb-opc/analysis/ala5-ff14sb-opc-1-dihedral-clusters.dat"]

/-- Pointwise check of the C8 invariant for a pair of (pre-loop, post-loop)
dictionary entries: same key, `force_field_file` and `water_model`
unchanged, the `water_model_file` key present afterwards, declared values
(including `None`) kept, and absent values filled from
`water_model_files[entry["water_model"]]`. -/
def ffEntryCheck (p q : String × FFEntry) : Bool :=
  q.1 == p.1
  && q.2.force_field_file == p.2.force_field_file
  && q.2.water_model == p.2.water_model
  && q.2.water_model_file.isSome
  && (if p.2.water_model_file.isSome
      then q.2.water_model_file == p.2.water_model_file
      else (List.lookup p.2.water_model water_model_files).isSome
           && q.2.water_model_file
               == Option.some (List.lookup p.2.water_model water_model_files))

/-- The cascading-configuration property for one parameter: the passed
value is the target override when the key is present and the given default
otherwise. -/
def cascades (tp : Params) (k : String) (dflt passed : Val) : Prop :=
  (∀ v, tp.find k = Option.some v → passed = v)
  ∧ (tp.find k = Option.none → passed = dflt)

/-- The trajectory-length selection property: the override when present,
otherwise the `target_type`-specific default. -/
def trajSel (tp : Params) (passed : Val) : Prop :=
  (∀ v, tp.find "traj_length" = Option.some v → passed = v)
  ∧ (tp.find "traj_length" = Option.none →
      ∀ t, tp.find "target_type" = Option.some t →
        (t = Val.str "peptide" → passed = PEPTIDE_TRAJ_LENGTH)
        ∧ (t = Val.str "folded" → passed = FOLDED_TRAJ_LENGTH)
        ∧ (t = Val.str "disordered" → passed = DISORDERED_TRAJ_LENGTH))

/-- The `nonbonded_cutoff`, `vdw_switch_width` and `solvent_padding`
arguments of a `solvate` call, when the action is one. -/
def PBAction.solvateArgs : PBAction → Option (Val × Val × Val)
  | PBAction.solvate _ nb vdw _ _ _ _ _ _ sp _ _ => Option.some (nb, vdw, sp)
  | _ => Option.none

/-- The `OpenMMSimulation` constructor arguments of an action, when any. -/
def PBAction.openmmCfg : PBAction → Option OpenMMSimConfig
  | PBAction.start_from_pdb cfg => Option.some cfg
  | PBAction.start_from_save_state cfg _ => Option.some cfg
  | PBAction.resume_from_checkpoint cfg => Option.some cfg
  | _ => Option.none

/-- The `GMXSimulation` constructor arguments of an action, when any. -/
def PBAction.gmxCfg : PBAction → Option GMXSimConfig
  | PBAction.gmx_run cfg => Option.some cfg
  | PBAction.gmx_start_from_save_state cfg _ => Option.some cfg
  | _ => Option.none

/-- `tpW` with `target_type` set to `"folded"`. -/
def tpFolded : Params :=
  [("pressure", Val.abstr 0), ("temperature", Val.abstr 1), ("ph", Val.abstr 2),
   ("ionic_strength", Val.abstr 3), ("aa_sequence", Val.str "AAAAA"),
   ("target_type", Val.str "folded")]

/-- The witness system with a folded target. -/
def sFolded : PBSystem := { sW with target_parameters := tpFolded }

example : initCheck "t" [("pressure", Val.abstr 0), ("temperature", Val.abstr 1),
    ("ph", Val.abstr 2), ("ionic_strength", Val.abstr 3)] = Except.ok () := rfl

example : initCheck "t" [] =
    Except.error (PBError.valueError
      "benchmark_targets for target t must contain \"pressure\"") := rfl

theorem buildStage_spec (s : PBSystem) (fs : FS) (acts : List PBAction)
    (h : buildStage s fs = Except.ok acts) :
    acts.any PBAction.isBuildCall = !(exists_and_not_empty fs s.protonated_pdb)
    ∧ acts.any PBAction.isSolvate = false
    ∧ acts.any PBAction.isMinimize = false := by
  unfold buildStage at h
  by_cases h1 : exists_and_not_empty fs s.protonated_pdb
  · simp [h1] at h
    subst h
    simp [h1, PBAction.isBuildCall, PBAction.isSolvate, PBAction.isMinimize]
  · simp [h1] at h
    by_cases h2 : s.target_parameters.contains "initial_pdb"
    · simp [h2] at h
      cases hph : s.target_parameters.getE "ph" with
      | ok v =>
        simp [hph, bind, Except.bind] at h
        subst h
        simp [h1, PBAction.isBuildCall, PBAction.isSolvate, PBAction.isMinimize]
      | error e =>
        simp [hph, bind, Except.bind] at h
    · simp [h2] at h
      by_cases h3 : s.target_parameters.contains "aa_sequence"
      · simp [h3] at h
        cases hph : s.target_parameters.getE "ph" with
        | ok v =>
          cases haa : s.target_parameters.getE "aa_sequence" with
          | ok w =>
            simp [hph, haa, bind, Except.bind] at h
            subst h
            simp [h1, PBAction.isBuildCall, PBAction.isSolvate, PBAction.isMinimize]
          | error e =>
            simp [hph, haa, bind, Except.bind] at h
        | error e =>
          simp [hph, bind, Except.bind] at h
      · simp [h3] at h

theorem solvateStage_spec (s : PBSystem) (fs : FS) (acts : List PBAction)
    (h : solvateStage s fs = Except.ok acts) :
    acts.any PBAction.isBuildCall = false
    ∧ acts.any PBAction.isSolvate
        = ((s.sim_platform != "gmx" && !(exists_and_not_empty fs s.openmm_system))
           || (s.sim_platform == "gmx"
               && !(exists_and_not_empty fs (s.setup_pfx ++ ".top"))))
    ∧ acts.any PBAction.isMinimize = false := by
  unfold solvateStage at h
  by_cases hc : ((s.sim_platform != "gmx" && !(exists_and_not_empty fs s.openmm_system))
      || (s.sim_platform == "gmx" && !(exists_and_not_empty fs (s.setup_pfx ++ ".top"))))
  · simp only [hc, if_pos] at h
    by_cases hsp : s.target_parameters.contains "solvent_padding"
    · simp only [hsp, if_pos] at h
      cases hv : s.target_parameters.getE "solvent_padding" with
      | ok v =>
        cases hion : s.target_parameters.getE "ionic_strength" with
        | ok w =>
          simp [hv, hion, bind, Except.bind] at h
          subst h
          simp [hc, PBAction.isBuildCall, PBAction.isSolvate, PBAction.isMinimize]
        | error e =>
          simp [hv, hion, bind, Except.bind] at h
      | error e =>
        simp [hv, bind, Except.bind] at h
    · simp only [hsp, if_neg, Bool.false_eq_true, not_false_iff] at h
      cases htt : s.target_parameters.getE "target_type" with
      | ok v =>
        cases hion : s.target_parameters.getE "ionic_strength" with
        | ok w =>
          by_cases hf : v = Val.str "folded"
          · simp [htt, hion, hf, bind, Except.bind] at h
            subst h
            simp [hc, PBAction.isBuildCall, PBAction.isSolvate, PBAction.isMinimize]
          · simp [htt, hion, hf, bind, Except.bind] at h
            subst h
            simp [hc, PBAction.isBuildCall, PBAction.isSolvate, PBAction.isMinimize]
        | error e =>
          by_cases hf : v = Val.str "folded"
          · simp [htt, hion, hf, bind, Except.bind] at h
          · simp [htt, hion, hf, bind, Except.bind] at h
      | error e =>
        simp [htt, bind, Except.bind] at h
  · simp only [hc, if_neg, Bool.false_eq_true, not_false_iff] at h
    have hc2 : ((s.sim_platform != "gmx" && !(exists_and_not_empty fs s.openmm_system))
        || (s.sim_platform == "gmx"
            && !(exists_and_not_empty fs (s.setup_pfx ++ ".top")))) = false := by
      revert hc
      cases (s.sim_platform != "gmx" && !(exists_and_not_empty fs s.openmm_system))
          || (s.sim_platform == "gmx"
              && !(exists_and_not_empty fs (s.setup_pfx ++ ".top"))) <;> simp
    cases h
    simp [hc2]

theorem minimizeStage_spec (s : PBSystem) (fs : FS) (acts : List PBAction)
    (h : minimizeStage s fs = Except.ok acts) :
    acts.any PBAction.isBuildCall = false
    ∧ acts.any PBAction.isSolvate = false
    ∧ acts.any PBAction.isMinimize
        = ((s.sim_platform != "gmx" && !(exists_and_not_empty fs s.minimized_pdb))
           || (s.sim_platform == "gmx"
               && !(exists_and_not_empty fs (s.setup_dir ++ "/confout.gro")))) := by
  unfold minimizeStage at h
  by_cases h1 : (s.sim_platform != "gmx" && !(exists_and_not_empty fs s.minimized_pdb))
  · simp only [h1, if_pos] at h
    cases h
    simp [h1, PBAction.isBuildCall, PBAction.isSolvate, PBAction.isMinimize]
  · have h1f : (s.sim_platform != "gmx"
        && !(exists_and_not_empty fs s.minimized_pdb)) = false := by
      revert h1
      cases (s.sim_platform != "gmx" && !(exists_and_not_empty fs s.minimized_pdb)) <;> simp
    rw [if_neg (by simp [h1f])] at h
    by_cases h2 : (s.sim_platform == "gmx"
        && !(exists_and_not_empty fs (s.setup_dir ++ "/confout.gro")))
    · simp only [h2, if_pos] at h
      cases h
      simp [h1f, h2, PBAction.isBuildCall, PBAction.isSolvate, PBAction.isMinimize]
    · have h2f : (s.sim_platform == "gmx"
          && !(exists_and_not_empty fs (s.setup_dir ++ "/confout.gro"))) = false := by
        revert h2
        cases (s.sim_platform == "gmx"
            && !(exists_and_not_empty fs (s.setup_dir ++ "/confout.gro"))) <;> simp
      rw [if_neg (by simp [h2f])] at h
      cases h
      simp [h1f, h2f]

theorem setup_decomp (s : PBSystem) (fs : FS)
    (h : (s.setup fs).error = Option.none) :
    ∃ a1 a2 a3, buildStage s fs = Except.ok a1
      ∧ solvateStage s fs = Except.ok a2
      ∧ minimizeStage s fs = Except.ok a3
      ∧ (s.setup fs).actions = a1 ++ a2 ++ a3 := by
  unfold PBSystem.setup at h ⊢
  cases hb : buildStage s fs with
  | error e => simp [hb, runStage, Outcome.andThen] at h
  | ok a1 =>
    cases hs : solvateStage s fs with
    | error e => simp [hb, hs, runStage, Outcome.andThen] at h
    | ok a2 =>
      cases hm : minimizeStage s fs with
      | error e => simp [hb, hs, hm, runStage, Outcome.andThen] at h
      | ok a3 =>
        exact ⟨a1, a2, a3, rfl, rfl, rfl,
          by simp [hb, hs, hm, runStage, Outcome.andThen]⟩

/-- C1: in `setup`, each stage runs iff its on-disk artifact is missing or
empty: `build_initial_coordinates` iff the protonated PDB is missing or
empty; `solvate` iff the OpenMM system XML (non-gmx) resp. the
`<setup_prefix>.top` file (gmx) is missing or empty; `minimize` iff the
minimized PDB (non-gmx) resp. `<setup_dir>/confout.gro` (gmx) is missing or
empty. -/
theorem setup_stage_artifact_guards (s : PBSystem) (fs : FS)
    (h : (s.setup fs).error = Option.none) :
    ((s.setup fs).actions.any PBAction.isBuildCall
        = !(exists_and_not_empty fs s.protonated_pdb))
    ∧ ((s.setup fs).actions.any PBAction.isSolvate
        = (if s.sim_platform = "gmx"
           then !(exists_and_not_empty fs (s.setup_pfx ++ ".top"))
           else !(exists_and_not_empty fs s.openmm_system)))
    ∧ ((s.setup fs).actions.any PBAction.isMinimize
        = (if s.sim_platform = "gmx"
           then !(exists_and_not_empty fs (s.setup_dir ++ "/confout.gro"))
           else !(exists_and_not_empty fs s.minimized_pdb))) := by
  obtain ⟨a1, a2, a3, hb, hs, hm, hacts⟩ := setup_decomp s fs h
  obtain ⟨hb1, hb2, hb3⟩ := buildStage_spec s fs a1 hb
  obtain ⟨hs1, hs2, hs3⟩ := solvateStage_spec s fs a2 hs
  obtain ⟨hm1, hm2, hm3⟩ := minimizeStage_spec s fs a3 hm
  rw [hacts]
  simp only [List.any_append]
  refine ⟨?_, ?_, ?_⟩
  · rw [hb1, hs1, hm1]
    simp
  · rw [hb2, hs2, hm2]
    by_cases hp : s.sim_platform = "gmx"
    · simp [hp, bne]
    · have hpf : (s.sim_platform == "gmx") = false := beq_eq_false_iff_ne.mpr hp
      simp [hpf, bne, hp]
  · rw [hb3, hs3, hm3]
    by_cases hp : s.sim_platform = "gmx"
    · simp [hp, bne]
    · have hpf : (s.sim_platform == "gmx") = false := beq_eq_false_iff_ne.mpr hp
      simp [hpf, bne, hp]

theorem setup_stage_artifact_guards_witness :
    ((sW.setup []).error = Option.none)
    ∧ (((sW.setup []).actions.any PBAction.isBuildCall
          = !(exists_and_not_empty [] sW.protonated_pdb))
       ∧ ((sW.setup []).actions.any PBAction.isSolvate
          = (if sW.sim_platform = "gmx"
             then !(exists_and_not_empty [] (sW.setup_pfx ++ ".top"))
             else !(exists_and_not_empty [] sW.openmm_system)))
       ∧ ((sW.setup []).actions.any PBAction.isMinimize
          = (if sW.sim_platform = "gmx"
             then !(exists_and_not_empty [] (sW.setup_dir ++ "/confout.gro"))
             else !(exists_and_not_empty [] sW.minimized_pdb)))) :=
  ⟨rfl, setup_stage_artifact_guards sW [] rfl⟩

theorem string_append_left_cancel (a b c : String) (h : a ++ b = a ++ c) :
    b = c := by
  apply String.ext
  have hd := congrArg String.data h
  rw [String.data_append, String.data_append] at hd
  exact List.append_cancel_left hd

theorem string_append_right_cancel (a b c : String) (h : a ++ c = b ++ c) :
    a = b := by
  apply String.ext
  have hd := congrArg String.data h
  rw [String.data_append, String.data_append] at hd
  exact List.append_cancel_right hd

/-- C5 counterexample: two systems with the same result directory that
differ only in the water model name have the same `system_name` and the
same base result path, contrary to the claim. -/
theorem system_name_ignores_water_model :
    sW.water_model ≠ ({ sW with water_model := "tip3p" } : PBSystem).water_model
    ∧ sW.system_name = ({ sW with water_model := "tip3p" } : PBSystem).system_name
    ∧ sW.base_path = ({ sW with water_model := "tip3p" } : PBSystem).base_path := by
  refine ⟨?_, rfl, rfl⟩
  intro h
  simp [sW] at h

/-- C5 (amended): `system_name` and the base result path are computed from
the target name and force field name only.  Two systems with the same
result directory and the same target name but different force field names
(or the same force field name and different target names) have distinct
`system_name` and distinct base result paths. -/
theorem system_name_distinctness (s1 s2 : PBSystem)
    (hrd : s1.result_directory = s2.result_directory)
    (hdiff : (s1.target_name = s2.target_name ∧ s1.force_field ≠ s2.force_field)
           ∨ (s1.force_field = s2.force_field ∧ s1.target_name ≠ s2.target_name)) :
    s1.system_name ≠ s2.system_name ∧ s1.base_path ≠ s2.base_path := by
  have hsn : s1.system_name ≠ s2.system_name := by
    intro h
    unfold PBSystem.system_name at h
    rcases hdiff with ⟨ht, hf⟩ | ⟨hf, ht⟩
    · rw [ht] at h
      exact hf (string_append_left_cancel _ _ _ h)
    · rw [hf] at h
      have := string_append_right_cancel _ _ _ h
      exact ht (string_append_right_cancel _ _ _ this)
  refine ⟨hsn, ?_⟩
  intro h
  unfold PBSystem.base_path pathJoin at h
  rw [hrd] at h
  exact hsn (string_append_left_cancel _ _ _ h)

theorem system_name_distinctness_witness :
    (sW.result_directory
        = ({ sW with force_field := "ff14sb-tip3p" } : PBSystem).result_directory)
    ∧ ((sW.target_name = ({ sW with force_field := "ff14sb-tip3p" } : PBSystem).target_name
        ∧ sW.force_field ≠ ({ sW with force_field := "ff14sb-tip3p" } : PBSystem).force_field)
       ∨ (sW.force_field = ({ sW with force_field := "ff14sb-tip3p" } : PBSystem).force_field
        ∧ sW.target_name ≠ ({ sW with force_field := "ff14sb-tip3p" } : PBSystem).target_name))
    ∧ (sW.system_name ≠ ({ sW with force_field := "ff14sb-tip3p" } : PBSystem).system_name
        ∧ sW.base_path ≠ ({ sW with force_field := "ff14sb-tip3p" } : PBSystem).base_path) :=
  ⟨rfl, Or.inl ⟨rfl, by decide⟩,
    system_name_distinctness sW { sW with force_field := "ff14sb-tip3p" } rfl
      (Or.inl ⟨rfl, by decide⟩)⟩

/-- C4 counterexample: `__init__` itself raises a `ValueError` for a target
configuration missing the thermodynamic state; no wrapped engine is
involved. -/
theorem init_raises_value_error :
    initCheck "ala5" [] = Except.error (PBError.valueError
      "benchmark_targets for target ala5 must contain \"pressure\"") := rfl

/-- C4 (amended): the orchestration does validate target configuration
itself: `__init__` succeeds exactly when the four thermodynamic-state keys
are present (raising `ValueError` otherwise), and `setup` raises its own
`ValueError` when initial coordinates must be built and the target
declares neither `initial_pdb` nor `aa_sequence`. -/
theorem orchestration_raises_config_errors :
    (∀ (target_name : String) (tp : Params),
      initCheck target_name tp = Except.ok ()
        ↔ (tp.contains "pressure" && tp.contains "temperature"
           && tp.contains "ph" && tp.contains "ionic_strength") = true)
    ∧ (∀ (s : PBSystem) (fs : FS),
        exists_and_not_empty fs s.protonated_pdb = false →
        s.target_parameters.contains "initial_pdb" = false →
        s.target_parameters.contains "aa_sequence" = false →
        buildStage s fs = Except.error (PBError.valueError
          ("benchmark_targets for target " ++ s.target_name ++
           " must contain one of \"aa_sequence\" or \"initial_pdb\""))) := by
  constructor
  · intro target_name tp
    unfold initCheck
    by_cases h1 : tp.contains "pressure" <;>
      by_cases h2 : tp.contains "temperature" <;>
        by_cases h3 : tp.contains "ph" <;>
          by_cases h4 : tp.contains "ionic_strength" <;>
            simp [requireQuantities, h1, h2, h3, h4]
  · intro s fs h1 h2 h3
    unfold buildStage
    simp [h1, h2, h3]

theorem orchestration_raises_config_errors_witness :
    buildStage { sW with target_parameters := [] } [] =
      Except.error (PBError.valueError
        ("benchmark_targets for target " ++
          ({ sW with target_parameters := [] } : PBSystem).target_name ++
          " must contain one of \"aa_sequence\" or \"initial_pdb\"")) :=
  orchestration_raises_config_errors.2 { sW with target_parameters := [] } []
    rfl rfl rfl

theorem equilStage_skip (s : PBSystem) (fs : FS) (eqPfx spPfx es : String)
    (h : exists_and_not_empty fs es = true) :
    equilStage s fs eqPfx spPfx es = Except.ok [] := by
  unfold equilStage
  simp [h]

theorem equilStage_openmm_shape (s : PBSystem) (fs : FS) (eqPfx spPfx es : String)
    (hes : exists_and_not_empty fs es = false)
    (hp : (s.sim_platform == "gmx") = false)
    (acts : List PBAction)
    (h : equilStage s fs eqPfx spPfx es = Except.ok acts) :
    ∃ T P, s.target_parameters.getE "temperature" = Except.ok T
      ∧ s.target_parameters.getE "pressure" = Except.ok P
      ∧ acts = [PBAction.start_from_pdb
        { openmm_system_file := s.openmm_system
          initial_pdb_file := s.minimized_pdb
          dcd_reporter_file := eqPfx ++ ".dcd"
          state_reporter_file := eqPfx ++ ".out"
          checkpoint_file := eqPfx ++ ".chk"
          save_state_pfx := eqPfx
          temperature := T
          pressure := P
          langevin_friction :=
            paramOr s.target_parameters "equil_langevin_friction" EQUIL_LANGEVIN_FRICTION
          barostat_frequency :=
            paramOr s.target_parameters "equil_barostat_frequency" EQUIL_BAROSTAT_FREQUENCY
          timestep := paramOr s.target_parameters "equil_timestep" EQUIL_TIMESTEP
          traj_length := paramOr s.target_parameters "equil_traj_length" EQUIL_TRAJ_LENGTH
          frame_length := paramOr s.target_parameters "equil_frame_length" EQUIL_FRAME_LENGTH
          checkpoint_length := paramOr s.target_parameters "equil_traj_length" EQUIL_TRAJ_LENGTH
          save_state_length := paramOr s.target_parameters "equil_traj_length" EQUIL_TRAJ_LENGTH }] := by
  unfold equilStage at h
  simp only [hes, Bool.not_false, if_pos, bne, hp, Bool.not_eq_true'] at h
  cases hT : s.target_parameters.getE "temperature" with
  | ok T =>
    cases hP : s.target_parameters.getE "pressure" with
    | ok P =>
      simp [hT, hP, bind, Except.bind] at h
      exact ⟨T, P, rfl, rfl, h.symm⟩
    | error e =>
      simp [hT, hP, bind, Except.bind] at h
  | error e =>
    simp [hT, bind, Except.bind] at h

theorem equilStage_gmx_shape (s : PBSystem) (fs : FS) (eqPfx spPfx es : String)
    (hes : exists_and_not_empty fs es = false)
    (hp : (s.sim_platform == "gmx") = true)
    (acts : List PBAction)
    (h : equilStage s fs eqPfx spPfx es = Except.ok acts) :
    ∃ T P, s.target_parameters.getE "temperature" = Except.ok T
      ∧ s.target_parameters.getE "pressure" = Except.ok P
      ∧ acts = [PBAction.gmx_run
        { gmx_executable := s.gmx_executable
          initial_pdb_file := s.minimized_pdb
          save_state_pfx := eqPfx
          setup_pfx := spPfx
          temperature := T
          pressure := P
          barostat_constant :=
            paramOr s.target_parameters "equil_barostat_constant" EQUIL_BAROSTAT_CONSTANT
          thermostat_constant :=
            paramOr s.target_parameters "equil_thermostat_constant" EQUIL_THERMOSTAT_CONSTANT
          timestep := paramOr s.target_parameters "equil_timestep" EQUIL_TIMESTEP
          traj_length := paramOr s.target_parameters "equil_traj_length" EQUIL_TRAJ_LENGTH
          frame_length := paramOr s.target_parameters "equil_frame_length" EQUIL_FRAME_LENGTH
          restraints_present := Val.str "NPT"
          load_state_pfx := Option.none }] := by
  unfold equilStage at h
  simp only [hes, Bool.not_false, if_pos, bne, hp, Bool.not_true] at h
  simp only [Bool.false_eq_true, if_false] at h
  cases hT : s.target_parameters.getE "temperature" with
  | ok T =>
    cases hP : s.target_parameters.getE "pressure" with
    | ok P =>
      simp [hT, hP, bind, Except.bind] at h
      exact ⟨T, P, rfl, rfl, h.symm⟩
    | error e =>
      simp [hT, hP, bind, Except.bind] at h
  | error e =>
    simp [hT, bind, Except.bind] at h

theorem productionStage_openmm_shape (s : PBSystem) (fs : FS)
    (prodPfx spPfx eqPfx es : String)
    (hp : (s.sim_platform == "gmx") = false)
    (acts : List PBAction)
    (h : productionStage s fs prodPfx spPfx eqPfx es = Except.ok acts) :
    ∃ L T P, resolveTrajLength s = Except.ok L
      ∧ s.target_parameters.getE "temperature" = Except.ok T
      ∧ s.target_parameters.getE "pressure" = Except.ok P
      ∧ acts = [let cfg : OpenMMSimConfig :=
          { openmm_system_file := s.openmm_system
            initial_pdb_file := s.minimized_pdb
            dcd_reporter_file := prodPfx ++ ".dcd"
            state_reporter_file := prodPfx ++ ".out"
            checkpoint_file := prodPfx ++ ".chk"
            save_state_pfx := prodPfx
            temperature := T
            pressure := P
            langevin_friction :=
              paramOr s.target_parameters "langevin_friction" LANGEVIN_FRICTION
            barostat_frequency :=
              paramOr s.target_parameters "barostat_frequency" BAROSTAT_FREQUENCY
            timestep := paramOr s.target_parameters "timestep" TIMESTEP
            traj_length := L
            frame_length := paramOr s.target_parameters "frame_length" FRAME_LENGTH
            checkpoint_length :=
              paramOr s.target_parameters "checkpoint_length" CHECKPOINT_LENGTH
            save_state_length :=
              paramOr s.target_parameters "save_state_length" SAVE_STATE_LENGTH }
        if exists_and_not_empty fs (prodPfx ++ ".chk")
        then PBAction.resume_from_checkpoint cfg
        else PBAction.start_from_save_state cfg es] := by
  unfold productionStage at h
  cases hL : resolveTrajLength s with
  | ok L =>
    cases hT : s.target_parameters.getE "temperature" with
    | ok T =>
      cases hP : s.target_parameters.getE "pressure" with
      | ok P =>
        simp only [hL, hT, hP, bind, Except.bind, bne, hp, Bool.not_false, if_pos] at h
        refine ⟨L, T, P, rfl, rfl, rfl, ?_⟩
        by_cases hchk : exists_and_not_empty fs (prodPfx ++ ".chk")
        · simp only [hchk, Bool.not_true, Bool.false_eq_true, if_false] at h
          injection h with h
          subst h
          simp [hchk]
        · simp only [Bool.not_eq_true] at hchk
          simp only [hchk, Bool.not_false, if_pos] at h
          injection h with h
          subst h
          simp [hchk]
      | error e =>
        simp [hL, hT, hP, bind, Except.bind, bne, hp] at h
    | error e =>
      simp [hL, hT, bind, Except.bind, bne, hp] at h
  | error e =>
    simp [hL, bind, Except.bind] at h

theorem productionStage_gmx_shape (s : PBSystem) (fs : FS)
    (prodPfx spPfx eqPfx es : String)
    (hp : (s.sim_platform == "gmx") = true)
    (acts : List PBAction)
    (h : productionStage s fs prodPfx spPfx eqPfx es = Except.ok acts) :
    ∃ L T P, resolveTrajLength s = Except.ok L
      ∧ s.target_parameters.getE "temperature" = Except.ok T
      ∧ s.target_parameters.getE "pressure" = Except.ok P
      ∧ acts = [let cfg : GMXSimConfig :=
          { gmx_executable := s.gmx_executable
            initial_pdb_file := s.minimized_pdb
            setup_pfx := spPfx
            save_state_pfx := prodPfx
            temperature := T
            pressure := P
            barostat_constant :=
              paramOr s.target_parameters "barostat_constant" BAROSTAT_CONSTANT
            thermostat_constant :=
              paramOr s.target_parameters "thermostat_constant" THERMOSTAT_CONSTANT
            timestep := paramOr s.target_parameters "timestep" TIMESTEP
            traj_length := L
            frame_length := paramOr s.target_parameters "frame_length" FRAME_LENGTH
            restraints_present := Val.vbool false
            load_state_pfx := Option.some eqPfx }
        if exists_and_not_empty fs (prodPfx ++ ".cpt")
        then PBAction.gmx_start_from_save_state cfg (prodPfx ++ ".cpt")
        else PBAction.gmx_run cfg] := by
  unfold productionStage at h
  cases hL : resolveTrajLength s with
  | ok L =>
    cases hT : s.target_parameters.getE "temperature" with
    | ok T =>
      cases hP : s.target_parameters.getE "pressure" with
      | ok P =>
        simp only [hL, hT, hP, bind, Except.bind, bne, hp, Bool.not_true,
          Bool.false_eq_true, if_false] at h
        refine ⟨L, T, P, rfl, rfl, rfl, ?_⟩
        by_cases hchk : exists_and_not_empty fs (prodPfx ++ ".cpt")
        · simp only [hchk, Bool.not_true, Bool.false_eq_true, if_false] at h
          injection h with h
          subst h
          simp [hchk]
        · simp only [Bool.not_eq_true] at hchk
          simp only [hchk, Bool.not_false, if_pos] at h
          injection h with h
          subst h
          simp [hchk]
      | error e =>
        simp [hL, hT, hP, bind, Except.bind, bne, hp] at h
    | error e =>
      simp [hL, hT, bind, Except.bind, bne, hp] at h
  | error e =>
    simp [hL, bind, Except.bind] at h

theorem productionStage_error_of_traj (s : PBSystem) (fs : FS)
    (prodPfx spPfx eqPfx es : String) (e : PBError)
    (h : resolveTrajLength s = Except.error e) :
    productionStage s fs prodPfx spPfx eqPfx es = Except.error e := by
  unfold productionStage
  simp [h, bind, Except.bind]

theorem run_decomp (s : PBSystem) (replica : Nat) (fs : FS)
    (h : (s.run_simulations replica fs).error = Option.none) :
    ∃ e1 p1,
      equilStage s fs (s.equil_pfx replica)
        (pathJoin (pathJoin s.base_path "setup") s.system_name)
        (if s.sim_platform = "gmx" then s.equil_pfx replica ++ ".gro"
         else s.equil_pfx replica ++ "-1.xml") = Except.ok e1
      ∧ productionStage s fs (s.prod_pfx replica)
          (pathJoin (pathJoin s.base_path "setup") s.system_name)
          (s.equil_pfx replica)
          (if s.sim_platform = "gmx" then s.equil_pfx replica ++ ".gro"
           else s.equil_pfx replica ++ "-1.xml") = Except.ok p1
      ∧ (s.run_simulations replica fs).actions = e1 ++ p1 := by
  unfold PBSystem.run_simulations at h ⊢
  cases he : equilStage s fs (s.equil_pfx replica)
      (pathJoin (pathJoin s.base_path "setup") s.system_name)
      (if s.sim_platform = "gmx" then s.equil_pfx replica ++ ".gro"
       else s.equil_pfx replica ++ "-1.xml") with
  | error e => simp [he, runStage, Outcome.andThen] at h
  | ok e1 =>
    cases hq : productionStage s fs (s.prod_pfx replica)
        (pathJoin (pathJoin s.base_path "setup") s.system_name)
        (s.equil_pfx replica)
        (if s.sim_platform = "gmx" then s.equil_pfx replica ++ ".gro"
         else s.equil_pfx replica ++ "-1.xml") with
    | error e => simp [he, hq, runStage, Outcome.andThen] at h
    | ok p1 =>
      exact ⟨e1, p1, rfl, rfl, by simp [he, hq, runStage, Outcome.andThen]⟩

/-- C2: backend-dependent checkpoint/resume semantics of `run_simulations`:
for non-gmx platforms, production starts from the equilibration save state
`<equil_prefix>-1.xml` iff the production checkpoint `<prod_prefix>.chk` is
missing or empty and otherwise resumes from that checkpoint; for gmx,
production runs fresh iff `<prod_prefix>.cpt` is missing or empty and
otherwise starts from that checkpoint file; the equilibrated-state artifact
guarding equilibration is `<equil_prefix>-1.xml` for non-gmx and
`<equil_prefix>.gro` for gmx. -/
theorem run_checkpoint_semantics (s : PBSystem) (replica : Nat) (fs : FS)
    (h : (s.run_simulations replica fs).error = Option.none) :
    (s.sim_platform ≠ "gmx" →
      ((s.run_simulations replica fs).actions.any
          (PBAction.isStartFromSaveState (s.equil_pfx replica ++ "-1.xml"))
        = !(exists_and_not_empty fs (s.prod_pfx replica ++ ".chk")))
      ∧ ((s.run_simulations replica fs).actions.any PBAction.isResume
        = exists_and_not_empty fs (s.prod_pfx replica ++ ".chk"))
      ∧ ((s.run_simulations replica fs).actions.any PBAction.isEquilibration
        = !(exists_and_not_empty fs (s.equil_pfx replica ++ "-1.xml"))))
    ∧ (s.sim_platform = "gmx" →
      ((s.run_simulations replica fs).actions.any PBAction.isGmxFreshRun
        = !(exists_and_not_empty fs (s.prod_pfx replica ++ ".cpt")))
      ∧ ((s.run_simulations replica fs).actions.any
          (PBAction.isGmxStartFromSaveState (s.prod_pfx replica ++ ".cpt"))
        = exists_and_not_empty fs (s.prod_pfx replica ++ ".cpt"))
      ∧ ((s.run_simulations replica fs).actions.any PBAction.isEquilibration
        = !(exists_and_not_empty fs (s.equil_pfx replica ++ ".gro")))) := by
  obtain ⟨e1, p1, he, hq, hacts⟩ := run_decomp s replica fs h
  constructor
  · intro hp
    have hpb : (s.sim_platform == "gmx") = false := beq_eq_false_iff_ne.mpr hp
    rw [if_neg hp] at he hq
    obtain ⟨L, T, P, hL, hT, hP, hshape⟩ :=
      productionStage_openmm_shape s fs _ _ _ _ hpb p1 hq
    rw [hacts, hshape]
    by_cases hes : exists_and_not_empty fs (s.equil_pfx replica ++ "-1.xml")
    · rw [equilStage_skip s fs _ _ _ hes] at he
      injection he with he
      subst he
      by_cases hchk : exists_and_not_empty fs (s.prod_pfx replica ++ ".chk") <;>
        simp [hchk, hes, PBAction.isStartFromSaveState, PBAction.isResume,
          PBAction.isEquilibration]
    · simp only [Bool.not_eq_true] at hes
      obtain ⟨T2, P2, hT2, hP2, hshape2⟩ :=
        equilStage_openmm_shape s fs _ _ _ hes hpb e1 he
      subst hshape2
      by_cases hchk : exists_and_not_empty fs (s.prod_pfx replica ++ ".chk") <;>
        simp [hchk, hes, PBAction.isStartFromSaveState, PBAction.isResume,
          PBAction.isEquilibration]
  · intro hp
    have hpb : (s.sim_platform == "gmx") = true := beq_iff_eq.mpr hp
    rw [if_pos hp] at he hq
    obtain ⟨L, T, P, hL, hT, hP, hshape⟩ :=
      productionStage_gmx_shape s fs _ _ _ _ hpb p1 hq
    rw [hacts, hshape]
    by_cases hes : exists_and_not_empty fs (s.equil_pfx replica ++ ".gro")
    · rw [equilStage_skip s fs _ _ _ hes] at he
      injection he with he
      subst he
      by_cases hchk : exists_and_not_empty fs (s.prod_pfx replica ++ ".cpt") <;>
        simp [hchk, hes, PBAction.isGmxFreshRun, PBAction.isGmxStartFromSaveState,
          PBAction.isEquilibration]
    · simp only [Bool.not_eq_true] at hes
      obtain ⟨T2, P2, hT2, hP2, hshape2⟩ :=
        equilStage_gmx_shape s fs _ _ _ hes hpb e1 he
      subst hshape2
      by_cases hchk : exists_and_not_empty fs (s.prod_pfx replica ++ ".cpt") <;>
        simp [hchk, hes, PBAction.isGmxFreshRun, PBAction.isGmxStartFromSaveState,
          PBAction.isEquilibration]

theorem run_checkpoint_semantics_witness :
    ((sW.run_simulations 1 []).error = Option.none)
    ∧ ((sW.sim_platform ≠ "gmx" →
        ((sW.run_simulations 1 []).actions.any
            (PBAction.isStartFromSaveState (sW.equil_pfx 1 ++ "-1.xml"))
          = !(exists_and_not_empty [] (sW.prod_pfx 1 ++ ".chk")))
        ∧ ((sW.run_simulations 1 []).actions.any PBAction.isResume
          = exists_and_not_empty [] (sW.prod_pfx 1 ++ ".chk"))
        ∧ ((sW.run_simulations 1 []).actions.any PBAction.isEquilibration
          = !(exists_and_not_empty [] (sW.equil_pfx 1 ++ "-1.xml"))))
      ∧ (sW.sim_platform = "gmx" →
        ((sW.run_simulations 1 []).actions.any PBAction.isGmxFreshRun
          = !(exists_and_not_empty [] (sW.prod_pfx 1 ++ ".cpt")))
        ∧ ((sW.run_simulations 1 []).actions.any
            (PBAction.isGmxStartFromSaveState (sW.prod_pfx 1 ++ ".cpt"))
          = exists_and_not_empty [] (sW.prod_pfx 1 ++ ".cpt"))
        ∧ ((sW.run_simulations 1 []).actions.any PBAction.isEquilibration
          = !(exists_and_not_empty [] (sW.equil_pfx 1 ++ ".gro"))))) :=
  ⟨rfl, run_checkpoint_semantics sW 1 [] rfl⟩

theorem buildStage_all (s : PBSystem) (fs : FS) (acts : List PBAction)
    (h : buildStage s fs = Except.ok acts) :
    ∀ a ∈ acts, a.isBuildStage = true := by
  unfold buildStage at h
  by_cases h1 : exists_and_not_empty fs s.protonated_pdb
  · simp [h1] at h
    subst h
    simp
  · simp [h1] at h
    by_cases h2 : s.target_parameters.contains "initial_pdb"
    · simp [h2] at h
      cases hph : s.target_parameters.getE "ph" with
      | ok v =>
        simp [hph, bind, Except.bind] at h
        subst h
        simp [PBAction.isBuildStage]
      | error e =>
        simp [hph, bind, Except.bind] at h
    · simp [h2] at h
      by_cases h3 : s.target_parameters.contains "aa_sequence"
      · simp [h3] at h
        cases hph : s.target_parameters.getE "ph" with
        | ok v =>
          cases haa : s.target_parameters.getE "aa_sequence" with
          | ok w =>
            simp [hph, haa, bind, Except.bind] at h
            subst h
            simp [PBAction.isBuildStage]
          | error e =>
            simp [hph, haa, bind, Except.bind] at h
        | error e =>
          simp [hph, bind, Except.bind] at h
      · simp [h3] at h

theorem solvateStage_all (s : PBSystem) (fs : FS) (acts : List PBAction)
    (h : solvateStage s fs = Except.ok acts) :
    ∀ a ∈ acts, a.isSolvate = true := by
  unfold solvateStage at h
  by_cases hc : ((s.sim_platform != "gmx" && !(exists_and_not_empty fs s.openmm_system))
      || (s.sim_platform == "gmx" && !(exists_and_not_empty fs (s.setup_pfx ++ ".top"))))
  · simp only [hc, if_pos] at h
    by_cases hsp : s.target_parameters.contains "solvent_padding"
    · simp only [hsp, if_pos] at h
      cases hv : s.target_parameters.getE "solvent_padding" with
      | ok v =>
        cases hion : s.target_parameters.getE "ionic_strength" with
        | ok w =>
          simp [hv, hion, bind, Except.bind] at h
          subst h
          simp [PBAction.isSolvate]
        | error e =>
          simp [hv, hion, bind, Except.bind] at h
      | error e =>
        simp [hv, bind, Except.bind] at h
    · simp only [hsp, if_neg, Bool.false_eq_true, not_false_iff] at h
      cases htt : s.target_parameters.getE "target_type" with
      | ok v =>
        cases hion : s.target_parameters.getE "ionic_strength" with
        | ok w =>
          by_cases hf : v = Val.str "folded"
          · simp [htt, hion, hf, bind, Except.bind] at h
            subst h
            simp [PBAction.isSolvate]
          · simp [htt, hion, hf, bind, Except.bind] at h
            subst h
            simp [PBAction.isSolvate]
        | error e =>
          by_cases hf : v = Val.str "folded" <;>
            simp [htt, hion, hf, bind, Except.bind] at h
      | error e =>
        simp [htt, bind, Except.bind] at h
  · simp only [hc, if_neg, Bool.false_eq_true, not_false_iff] at h
    cases h
    simp

theorem minimizeStage_all (s : PBSystem) (fs : FS) (acts : List PBAction)
    (h : minimizeStage s fs = Except.ok acts) :
    ∀ a ∈ acts, a.isMinimize = true := by
  unfold minimizeStage at h
  by_cases h1 : (s.sim_platform != "gmx" && !(exists_and_not_empty fs s.minimized_pdb))
  · simp only [h1, if_pos] at h
    cases h
    simp [PBAction.isMinimize]
  · have h1f : (s.sim_platform != "gmx"
        && !(exists_and_not_empty fs s.minimized_pdb)) = false := by
      revert h1
      cases (s.sim_platform != "gmx" && !(exists_and_not_empty fs s.minimized_pdb)) <;> simp
    rw [if_neg (by simp [h1f])] at h
    by_cases h2 : (s.sim_platform == "gmx"
        && !(exists_and_not_empty fs (s.setup_dir ++ "/confout.gro")))
    · simp only [h2, if_pos] at h
      cases h
      simp [PBAction.isMinimize]
    · have h2f : (s.sim_platform == "gmx"
          && !(exists_and_not_empty fs (s.setup_dir ++ "/confout.gro"))) = false := by
        revert h2
        cases (s.sim_platform == "gmx"
            && !(exists_and_not_empty fs (s.setup_dir ++ "/confout.gro"))) <;> simp
      rw [if_neg (by simp [h2f])] at h
      cases h
      simp

/-- C6: pipeline stages execute sequentially and in fixed order: within
`setup` every build action precedes every solvate action, which precedes
every minimize action; within `run_simulations` every equilibration action
precedes every production action.  The behaviour of a call is a single
linear action list, so no two stages run concurrently. -/
theorem pipeline_sequential_order (s : PBSystem) (fs fs2 : FS) (replica : Nat)
    (h1 : (s.setup fs).error = Option.none)
    (h2 : (s.run_simulations replica fs2).error = Option.none) :
    (∃ l1 l2 l3, (s.setup fs).actions = l1 ++ l2 ++ l3
      ∧ (∀ a ∈ l1, a.isBuildStage = true)
      ∧ (∀ a ∈ l2, a.isSolvate = true)
      ∧ (∀ a ∈ l3, a.isMinimize = true))
    ∧ (∃ e p, (s.run_simulations replica fs2).actions = e ++ p
      ∧ (∀ a ∈ e, a.isEquilibration = true)
      ∧ (∀ a ∈ p, a.isProduction = true)) := by
  constructor
  · obtain ⟨a1, a2, a3, hb, hs, hm, hacts⟩ := setup_decomp s fs h1
    exact ⟨a1, a2, a3, hacts, buildStage_all s fs a1 hb,
      solvateStage_all s fs a2 hs, minimizeStage_all s fs a3 hm⟩
  · obtain ⟨e1, p1, he, hq, hacts⟩ := run_decomp s replica fs2 h2
    refine ⟨e1, p1, hacts, ?_, ?_⟩
    · by_cases hp : s.sim_platform = "gmx"
      · rw [if_pos hp] at he
        by_cases hes : exists_and_not_empty fs2 (s.equil_pfx replica ++ ".gro")
        · rw [equilStage_skip s fs2 _ _ _ hes] at he
          injection he with he
          subst he
          simp
        · simp only [Bool.not_eq_true] at hes
          obtain ⟨T, P, hT, hP, hshape⟩ :=
            equilStage_gmx_shape s fs2 _ _ _ hes (beq_iff_eq.mpr hp) e1 he
          subst hshape
          simp [PBAction.isEquilibration]
      · rw [if_neg hp] at he
        by_cases hes : exists_and_not_empty fs2 (s.equil_pfx replica ++ "-1.xml")
        · rw [equilStage_skip s fs2 _ _ _ hes] at he
          injection he with he
          subst he
          simp
        · simp only [Bool.not_eq_true] at hes
          obtain ⟨T, P, hT, hP, hshape⟩ :=
            equilStage_openmm_shape s fs2 _ _ _ hes (beq_eq_false_iff_ne.mpr hp) e1 he
          subst hshape
          simp [PBAction.isEquilibration]
    · by_cases hp : s.sim_platform = "gmx"
      · rw [if_pos hp] at hq
        obtain ⟨L, T, P, hL, hT, hP, hshape⟩ :=
          productionStage_gmx_shape s fs2 _ _ _ _ (beq_iff_eq.mpr hp) p1 hq
        subst hshape
        by_cases hchk : exists_and_not_empty fs2 (s.prod_pfx replica ++ ".cpt") <;>
          simp [hchk, PBAction.isProduction]
      · rw [if_neg hp] at hq
        obtain ⟨L, T, P, hL, hT, hP, hshape⟩ :=
          productionStage_openmm_shape s fs2 _ _ _ _ (beq_eq_false_iff_ne.mpr hp) p1 hq
        subst hshape
        by_cases hchk : exists_and_not_empty fs2 (s.prod_pfx replica ++ ".chk") <;>
          simp [hchk, PBAction.isProduction]

theorem pipeline_sequential_order_witness :
    ((sW.setup []).error = Option.none)
    ∧ ((sW.run_simulations 1 []).error = Option.none)
    ∧ ((∃ l1 l2 l3, (sW.setup []).actions = l1 ++ l2 ++ l3
        ∧ (∀ a ∈ l1, a.isBuildStage = true)
        ∧ (∀ a ∈ l2, a.isSolvate = true)
        ∧ (∀ a ∈ l3, a.isMinimize = true))
      ∧ (∃ e p, (sW.run_simulations 1 []).actions = e ++ p
        ∧ (∀ a ∈ e, a.isEquilibration = true)
        ∧ (∀ a ∈ p, a.isProduction = true))) :=
  ⟨rfl, rfl, pipeline_sequential_order sW [] [] 1 rfl rfl⟩

theorem resolveTrajLength_present (s : PBSystem) (v : Val)
    (h : s.target_parameters.find "traj_length" = Option.some v) :
    resolveTrajLength s = Except.ok v := by
  unfold resolveTrajLength
  simp [Params.contains, Params.getE, h]

theorem resolveTrajLength_by_type (s : PBSystem) (v : Val)
    (h : s.target_parameters.find "traj_length" = Option.none)
    (ht : s.target_parameters.find "target_type" = Option.some v) :
    resolveTrajLength s =
      (if v = Val.str "peptide" then Except.ok PEPTIDE_TRAJ_LENGTH
       else if v = Val.str "folded" then Except.ok FOLDED_TRAJ_LENGTH
       else if v = Val.str "disordered" then Except.ok DISORDERED_TRAJ_LENGTH
       else Except.error (PBError.valueError
         ("benchmark_targets for target " ++ s.target_name ++
          " must contain \"traj_length\" or \"target_type\" must be one of " ++
          "\"peptide\", \"folded\", or \"disordered\"."))) := by
  unfold resolveTrajLength
  simp [Params.contains, Params.getE, h, ht, bind, Except.bind]

theorem production_traj_flows (s : PBSystem) (fs : FS)
    (prodPfx spPfx eqPfx es : String) (acts : List PBAction) (L : Val)
    (h : productionStage s fs prodPfx spPfx eqPfx es = Except.ok acts)
    (hL : resolveTrajLength s = Except.ok L) :
    ∀ a ∈ acts, a.trajLength = Option.some L := by
  by_cases hp : s.sim_platform = "gmx"
  · obtain ⟨L2, T, P, hL2, hT, hP, hshape⟩ :=
      productionStage_gmx_shape s fs _ _ _ _ (beq_iff_eq.mpr hp) acts h
    rw [hL] at hL2
    injection hL2 with hL2
    subst hL2
    subst hshape
    by_cases hchk : exists_and_not_empty fs (prodPfx ++ ".cpt") <;>
      simp [hchk, PBAction.trajLength]
  · obtain ⟨L2, T, P, hL2, hT, hP, hshape⟩ :=
      productionStage_openmm_shape s fs _ _ _ _ (beq_eq_false_iff_ne.mpr hp) acts h
    rw [hL] at hL2
    injection hL2 with hL2
    subst hL2
    subst hshape
    by_cases hchk : exists_and_not_empty fs (prodPfx ++ ".chk") <;>
      simp [hchk, PBAction.trajLength]

/-- C7: when `target_parameters` lacks `traj_length`, the production
trajectory length is selected by `target_type` (`peptide`, `folded`,
`disordered` giving the corresponding global default) and every other value
of `target_type` raises a `ValueError`; when `traj_length` is present its
value is used regardless of `target_type`. -/
theorem production_traj_length_selection (s : PBSystem) (fs : FS)
    (prodPfx spPfx eqPfx es : String) :
    (∀ v, s.target_parameters.find "traj_length" = Option.some v →
      ∀ acts, productionStage s fs prodPfx spPfx eqPfx es = Except.ok acts →
        ∀ a ∈ acts, a.trajLength = Option.some v)
    ∧ (s.target_parameters.find "traj_length" = Option.none →
       ((s.target_parameters.find "target_type" = Option.some (Val.str "peptide") →
          ∀ acts, productionStage s fs prodPfx spPfx eqPfx es = Except.ok acts →
            ∀ a ∈ acts, a.trajLength = Option.some PEPTIDE_TRAJ_LENGTH)
        ∧ (s.target_parameters.find "target_type" = Option.some (Val.str "folded") →
          ∀ acts, productionStage s fs prodPfx spPfx eqPfx es = Except.ok acts →
            ∀ a ∈ acts, a.trajLength = Option.some FOLDED_TRAJ_LENGTH)
        ∧ (s.target_parameters.find "target_type" = Option.some (Val.str "disordered") →
          ∀ acts, productionStage s fs prodPfx spPfx eqPfx es = Except.ok acts →
            ∀ a ∈ acts, a.trajLength = Option.some DISORDERED_TRAJ_LENGTH)
        ∧ (∀ v, s.target_parameters.find "target_type" = Option.some v →
            v ≠ Val.str "peptide" → v ≠ Val.str "folded" → v ≠ Val.str "disordered" →
            productionStage s fs prodPfx spPfx eqPfx es =
              Except.error (PBError.valueError
                ("benchmark_targets for target " ++ s.target_name ++
                 " must contain \"traj_length\" or \"target_type\" must be one of " ++
                 "\"peptide\", \"folded\", or \"disordered\"."))))) := by
  refine ⟨?_, ?_⟩
  · intro v hv acts hacts
    exact production_traj_flows s fs _ _ _ _ acts v hacts
      (resolveTrajLength_present s v hv)
  · intro hnone
    refine ⟨?_, ?_, ?_, ?_⟩
    · intro ht acts hacts
      refine production_traj_flows s fs _ _ _ _ acts _ hacts ?_
      rw [resolveTrajLength_by_type s _ hnone ht]
      simp
    · intro ht acts hacts
      refine production_traj_flows s fs _ _ _ _ acts _ hacts ?_
      rw [resolveTrajLength_by_type s _ hnone ht]
      simp
    · intro ht acts hacts
      refine production_traj_flows s fs _ _ _ _ acts _ hacts ?_
      rw [resolveTrajLength_by_type s _ hnone ht]
      simp
    · intro v ht hv1 hv2 hv3
      apply productionStage_error_of_traj
      rw [resolveTrajLength_by_type s v hnone ht]
      simp [hv1, hv2, hv3]

theorem production_traj_length_selection_witness :
    (sW.target_parameters.find "traj_length" = Option.none)
    ∧ (sW.target_parameters.find "target_type" = Option.some (Val.str "peptide"))
    ∧ (∀ acts, productionStage sW [] "p" "sp" "eq" "es" = Except.ok acts →
        ∀ a ∈ acts, a.trajLength = Option.some PEPTIDE_TRAJ_LENGTH) :=
  ⟨rfl, rfl,
    ((production_traj_length_selection sW [] "p" "sp" "eq" "es").2 rfl).1 rfl⟩

/-- C9: when `sim_platform == 'gmx'`, the minimize stage passes the energy
tolerance (`target_parameters["energy_tolerance"]` if present, else
`ENERGY_TOLERANCE`) as the `restraint_energy_constant` argument and the
literal string `"none"` as `openmm_system_xml`; for every other platform it
passes the restraint energy constant (override or
`RESTRAINT_ENERGY_CONSTANT`) and the real OpenMM system XML path. -/
theorem minimize_platform_arguments (s : PBSystem) (fs : FS)
    (acts : List PBAction) (h : minimizeStage s fs = Except.ok acts) :
    ∀ a ∈ acts, ∀ r x, a.minimizeArgs = Option.some (r, x) →
      (s.sim_platform = "gmx" →
        x = "none"
        ∧ (∀ v, s.target_parameters.find "energy_tolerance" = Option.some v → r = v)
        ∧ (s.target_parameters.find "energy_tolerance" = Option.none →
            r = ENERGY_TOLERANCE))
      ∧ (s.sim_platform ≠ "gmx" →
        x = s.openmm_system
        ∧ (∀ v, s.target_parameters.find "restraint_energy_constant" = Option.some v →
            r = v)
        ∧ (s.target_parameters.find "restraint_energy_constant" = Option.none →
            r = RESTRAINT_ENERGY_CONSTANT)) := by
  unfold minimizeStage at h
  by_cases h1 : (s.sim_platform != "gmx" && !(exists_and_not_empty fs s.minimized_pdb))
  · have hne : s.sim_platform ≠ "gmx" := by
      intro hcontra
      simp [hcontra, bne] at h1
    simp only [h1, if_pos] at h
    cases h
    intro a ha r x hax
    simp only [List.mem_singleton] at ha
    subst ha
    simp only [PBAction.minimizeArgs, Option.some.injEq, Prod.mk.injEq] at hax
    obtain ⟨hr, hx⟩ := hax
    refine ⟨fun hcontra => absurd hcontra hne, fun _ => ⟨hx.symm, ?_, ?_⟩⟩
    · intro v hv
      rw [← hr]
      unfold paramOr
      rw [hv]
    · intro hv
      rw [← hr]
      unfold paramOr
      rw [hv]
  · have h1f : (s.sim_platform != "gmx"
        && !(exists_and_not_empty fs s.minimized_pdb)) = false := by
      revert h1
      cases (s.sim_platform != "gmx" && !(exists_and_not_empty fs s.minimized_pdb)) <;> simp
    rw [if_neg (by simp [h1f])] at h
    by_cases h2 : (s.sim_platform == "gmx"
        && !(exists_and_not_empty fs (s.setup_dir ++ "/confout.gro")))
    · have heq : s.sim_platform = "gmx" := by
        have := Bool.and_elim_left h2
        exact beq_iff_eq.mp this
      simp only [h2, if_pos] at h
      cases h
      intro a ha r x hax
      simp only [List.mem_singleton] at ha
      subst ha
      simp only [PBAction.minimizeArgs, Option.some.injEq, Prod.mk.injEq] at hax
      obtain ⟨hr, hx⟩ := hax
      refine ⟨fun _ => ⟨hx.symm, ?_, ?_⟩, fun hcontra => absurd heq hcontra⟩
      · intro v hv
        rw [← hr]
        unfold paramOr
        rw [hv]
      · intro hv
        rw [← hr]
        unfold paramOr
        rw [hv]
    · have h2f : (s.sim_platform == "gmx"
          && !(exists_and_not_empty fs (s.setup_dir ++ "/confout.gro"))) = false := by
        revert h2
        cases (s.sim_platform == "gmx"
            && !(exists_and_not_empty fs (s.setup_dir ++ "/confout.gro"))) <;> simp
      rw [if_neg (by simp [h2f])] at h
      cases h
      intro a ha
      simp at ha

theorem minimize_platform_arguments_witness :
    (minimizeStage sWgmx [] = Except.ok [PBAction.minimize ENERGY_TOLERANCE "none"
        (sWgmx.setup_pfx ++ "-solvated.pdb") sWgmx.minimized_pdb
        sWgmx.setup_pfx sWgmx.sim_platform sWgmx.gmx_executable])
    ∧ ((sWgmx.sim_platform = "gmx" →
        "none" = "none"
        ∧ (∀ v, sWgmx.target_parameters.find "energy_tolerance" = Option.some v →
            ENERGY_TOLERANCE = v)
        ∧ (sWgmx.target_parameters.find "energy_tolerance" = Option.none →
            ENERGY_TOLERANCE = ENERGY_TOLERANCE))
      ∧ (sWgmx.sim_platform ≠ "gmx" →
        "none" = sWgmx.openmm_system
        ∧ (∀ v, sWgmx.target_parameters.find "restraint_energy_constant"
              = Option.some v → ENERGY_TOLERANCE = v)
        ∧ (sWgmx.target_parameters.find "restraint_energy_constant" = Option.none →
            ENERGY_TOLERANCE = RESTRAINT_ENERGY_CONSTANT))) :=
  ⟨rfl, minimize_platform_arguments sWgmx [] _ rfl _ (List.mem_singleton_self _)
    ENERGY_TOLERANCE "none" rfl⟩
theorem analyze_observables_key_error (s : PBSystem) (replica : Nat) (fs : FS)
    (df hf : Int)
    (hobs : s.target_parameters.contains "observables" = false)
    (h1 : exists_and_not_empty fs (s.analysis_pfx replica ++ "-reimaged.pdb") = true)
    (h2 : exists_and_not_empty fs (s.analysis_pfx replica ++ "-dihedrals.dat") = true)
    (h3 : exists_and_not_empty fs
        (s.analysis_pfx replica ++ "-hydrogen-bond-geometries.dat") = true)
    (h4 : exists_and_not_empty fs
        (s.analysis_pfx replica ++ "-dihedral-clusters.dat") = true) :
    s.analyze_observables replica fs df hf =
      ⟨[], Option.some (PBError.keyError "observables")⟩ := by
  have hfind : s.target_parameters.find "observables" = Option.none := by
    revert hobs
    unfold Params.contains
    cases s.target_parameters.find "observables" <;> simp
  have hm : measurementStages s replica fs df hf = [] := by
    unfold measurementStages
    simp [h1, h2, h3, h4]
  have ho : observablesStage s replica fs
      = Except.error (PBError.keyError "observables") := by
    unfold observablesStage
    simp [Params.getE, hfind, bind, Except.bind]
  unfold PBSystem.analyze_observables
  rw [hm, ho]
  simp [runStage, Outcome.andThen]

theorem analyze_observables_key_error_witness :
    (sW.target_parameters.contains "observables" = false)
    ∧ (exists_and_not_empty fsW10 (sW.analysis_pfx 1 ++ "-reimaged.pdb") = true)
    ∧ (exists_and_not_empty fsW10 (sW.analysis_pfx 1 ++ "-dihedrals.dat") = true)
    ∧ (exists_and_not_empty fsW10
        (sW.analysis_pfx 1 ++ "-hydrogen-bond-geometries.dat") = true)
    ∧ (exists_and_not_empty fsW10
        (sW.analysis_pfx 1 ++ "-dihedral-clusters.dat") = true)
    ∧ sW.analyze_observables 1 fsW10 0 0 =
        ⟨[], Option.some (PBError.keyError "observables")⟩ :=
  ⟨rfl, rfl, rfl, rfl, rfl,
    analyze_observables_key_error sW 1 fsW10 0 0 rfl rfl rfl rfl rfl⟩

/-- C8: module initialization of `force_fields.py` completes (no entry's
water model is missing from `water_model_files`), preserves the number and
order of entries, and afterwards every entry has a `water_model_file` key:
declared values (including `None`) are kept unchanged, every other entry
receives `water_model_files[entry["water_model"]]`, and no other key of any
entry is added or modified. -/
theorem force_fields_entries_resolved :
    (force_fields_final.toOption.isSome = true)
    ∧ ((force_fields_final.toOption.getD []).length = force_fields_initial.length)
    ∧ ((force_fields_initial.zip (force_fields_final.toOption.getD [])).all
        (fun pq => ffEntryCheck pq.1 pq.2) = true) :=
  ⟨rfl, rfl, rfl⟩

theorem paramOr_cascades (tp : Params) (k : String) (d : Val) :
    cascades tp k d (paramOr tp k d) := by
  constructor
  · intro v hv
    unfold paramOr
    rw [hv]
  · intro hv
    unfold paramOr
    rw [hv]

theorem cascades_of_eq (tp : Params) (k : String) (d passed : Val)
    (h : passed = paramOr tp k d) : cascades tp k d passed := by
  subst h
  exact paramOr_cascades tp k d

theorem trajSel_of_resolve (s : PBSystem) (L : Val)
    (hL : resolveTrajLength s = Except.ok L) :
    trajSel s.target_parameters L := by
  constructor
  · intro v hv
    rw [resolveTrajLength_present s v hv] at hL
    injection hL with hL
    exact hL.symm
  · intro hnone t ht
    rw [resolveTrajLength_by_type s t hnone ht] at hL
    refine ⟨?_, ?_, ?_⟩ <;> intro hteq <;> subst hteq <;>
      simp at hL <;> exact hL.symm

theorem getE_ok_iff (tp : Params) (k : String) (v : Val) :
    tp.getE k = Except.ok v ↔ tp.find k = Option.some v := by
  unfold Params.getE
  cases tp.find k <;> simp

theorem contains_iff_find (tp : Params) (k : String) :
    tp.contains k = true ↔ ∃ v, tp.find k = Option.some v := by
  unfold Params.contains
  cases tp.find k <;> simp

theorem not_contains_find (tp : Params) (k : String)
    (h : ¬ tp.contains k = true) : tp.find k = Option.none := by
  revert h
  unfold Params.contains
  cases tp.find k <;> simp

theorem solvateStage_cascade (s : PBSystem) (fs : FS) (acts : List PBAction)
    (h : solvateStage s fs = Except.ok acts) :
    ∀ a ∈ acts, ∀ nb vdw sp, a.solvateArgs = Option.some (nb, vdw, sp) →
      cascades s.target_parameters "nonbonded_cutoff" NONBONDED_CUTOFF nb
      ∧ cascades s.target_parameters "vdw_switch_width" VDW_SWITCH_WIDTH vdw
      ∧ (∀ v, s.target_parameters.find "solvent_padding" = Option.some v → sp = v)
      ∧ (s.target_parameters.find "solvent_padding" = Option.none →
          ∀ t, s.target_parameters.find "target_type" = Option.some t →
            sp = if t = Val.str "folded" then SOLVENT_PADDING
                 else DISORDERED_SOLVENT_PADDING) := by
  unfold solvateStage at h
  by_cases hc : ((s.sim_platform != "gmx" && !(exists_and_not_empty fs s.openmm_system))
      || (s.sim_platform == "gmx" && !(exists_and_not_empty fs (s.setup_pfx ++ ".top"))))
  · simp only [hc, if_pos] at h
    by_cases hsp : s.target_parameters.contains "solvent_padding"
    · obtain ⟨v0, hv0⟩ := (contains_iff_find s.target_parameters "solvent_padding").mp hsp
      have hget : s.target_parameters.getE "solvent_padding" = Except.ok v0 :=
        (getE_ok_iff _ _ _).mpr hv0
      cases hion : s.target_parameters.getE "ionic_strength" with
      | ok w =>
        simp [hsp, hget, hion, bind, Except.bind] at h
        subst h
        intro a ha nb vdw sp hargs
        simp only [List.mem_singleton] at ha
        subst ha
        simp only [PBAction.solvateArgs, Option.some.injEq, Prod.mk.injEq] at hargs
        obtain ⟨hnb, hvdw, hsp2⟩ := hargs
        refine ⟨cascades_of_eq _ _ _ _ hnb.symm, cascades_of_eq _ _ _ _ hvdw.symm, ?_, ?_⟩
        · intro v hv
          rw [hv0] at hv
          injection hv with hv
          rw [← hsp2, hv]
        · intro hnone
          rw [hv0] at hnone
          cases hnone
      | error e =>
        simp [hsp, hget, hion, bind, Except.bind] at h
    · have hnone : s.target_parameters.find "solvent_padding" = Option.none :=
        not_contains_find _ _ hsp
      simp only [hsp, if_neg, Bool.false_eq_true, not_false_iff] at h
      cases htt : s.target_parameters.getE "target_type" with
      | ok t =>
        have htf : s.target_parameters.find "target_type" = Option.some t :=
          (getE_ok_iff _ _ _).mp htt
        cases hion : s.target_parameters.getE "ionic_strength" with
        | ok w =>
          by_cases hf : t = Val.str "folded"
          · simp [htt, hion, hf, bind, Except.bind] at h
            subst h
            intro a ha nb vdw sp hargs
            simp only [List.mem_singleton] at ha
            subst ha
            simp only [PBAction.solvateArgs, Option.some.injEq, Prod.mk.injEq] at hargs
            obtain ⟨hnb, hvdw, hsp2⟩ := hargs
            refine ⟨cascades_of_eq _ _ _ _ hnb.symm, cascades_of_eq _ _ _ _ hvdw.symm, ?_, ?_⟩
            · intro v hv
              rw [hnone] at hv
              cases hv
            · intro _ t2 ht2
              rw [htf] at ht2
              injection ht2 with ht2
              subst ht2
              rw [if_pos hf, ← hsp2]
          · simp [htt, hion, hf, bind, Except.bind] at h
            subst h
            intro a ha nb vdw sp hargs
            simp only [List.mem_singleton] at ha
            subst ha
            simp only [PBAction.solvateArgs, Option.some.injEq, Prod.mk.injEq] at hargs
            obtain ⟨hnb, hvdw, hsp2⟩ := hargs
            refine ⟨cascades_of_eq _ _ _ _ hnb.symm, cascades_of_eq _ _ _ _ hvdw.symm, ?_, ?_⟩
            · intro v hv
              rw [hnone] at hv
              cases hv
            · intro _ t2 ht2
              rw [htf] at ht2
              injection ht2 with ht2
              subst ht2
              rw [if_neg hf, ← hsp2]
        | error e =>
          by_cases hf : t = Val.str "folded" <;>
            simp [htt, hion, hf, bind, Except.bind] at h
      | error e =>
        simp [htt, bind, Except.bind] at h
  · simp only [hc, if_neg, Bool.false_eq_true, not_false_iff] at h
    cases h
    intro a ha
    simp at ha

theorem equilStage_cascade (s : PBSystem) (fs : FS) (eqPfx spPfx es : String)
    (acts : List PBAction) (h : equilStage s fs eqPfx spPfx es = Except.ok acts) :
    ∀ a ∈ acts,
      (∀ cfg, a = PBAction.start_from_pdb cfg →
        cascades s.target_parameters "equil_timestep" EQUIL_TIMESTEP cfg.timestep
        ∧ cascades s.target_parameters "equil_traj_length" EQUIL_TRAJ_LENGTH
            cfg.traj_length
        ∧ cascades s.target_parameters "equil_frame_length" EQUIL_FRAME_LENGTH
            cfg.frame_length
        ∧ cascades s.target_parameters "equil_langevin_friction"
            EQUIL_LANGEVIN_FRICTION cfg.langevin_friction
        ∧ cascades s.target_parameters "equil_barostat_frequency"
            EQUIL_BAROSTAT_FREQUENCY cfg.barostat_frequency)
      ∧ (∀ cfg, a = PBAction.gmx_run cfg →
        cascades s.target_parameters "equil_timestep" EQUIL_TIMESTEP cfg.timestep
        ∧ cascades s.target_parameters "equil_traj_length" EQUIL_TRAJ_LENGTH
            cfg.traj_length
        ∧ cascades s.target_parameters "equil_frame_length" EQUIL_FRAME_LENGTH
            cfg.frame_length
        ∧ cascades s.target_parameters "equil_barostat_constant"
            EQUIL_BAROSTAT_CONSTANT cfg.barostat_constant
        ∧ cascades s.target_parameters "equil_thermostat_constant"
            EQUIL_THERMOSTAT_CONSTANT cfg.thermostat_constant) := by
  by_cases hes : exists_and_not_empty fs es
  · rw [equilStage_skip s fs _ _ _ hes] at h
    injection h with h
    subst h
    intro a ha
    simp at ha
  · simp only [Bool.not_eq_true] at hes
    by_cases hp : (s.sim_platform == "gmx")
    · have hp2 : (s.sim_platform == "gmx") = true := hp
      obtain ⟨T, P, hT, hP, hshape⟩ := equilStage_gmx_shape s fs _ _ _ hes hp2 acts h
      subst hshape
      intro a ha
      simp only [List.mem_singleton] at ha
      subst ha
      constructor
      · intro cfg heq
        simp at heq
      · intro cfg heq
        injection heq with heq
        subst heq
        exact ⟨paramOr_cascades _ _ _, paramOr_cascades _ _ _,
          paramOr_cascades _ _ _, paramOr_cascades _ _ _, paramOr_cascades _ _ _⟩
    · have hp2 : (s.sim_platform == "gmx") = false := by
        revert hp
        cases (s.sim_platform == "gmx") <;> simp
      obtain ⟨T, P, hT, hP, hshape⟩ := equilStage_openmm_shape s fs _ _ _ hes hp2 acts h
      subst hshape
      intro a ha
      simp only [List.mem_singleton] at ha
      subst ha
      constructor
      · intro cfg heq
        injection heq with heq
        subst heq
        exact ⟨paramOr_cascades _ _ _, paramOr_cascades _ _ _,
          paramOr_cascades _ _ _, paramOr_cascades _ _ _, paramOr_cascades _ _ _⟩
      · intro cfg heq
        simp at heq

theorem productionStage_cascade (s : PBSystem) (fs : FS)
    (prodPfx spPfx eqPfx es : String) (acts : List PBAction)
    (h : productionStage s fs prodPfx spPfx eqPfx es = Except.ok acts) :
    ∀ a ∈ acts,
      (∀ cfg, a.openmmCfg = Option.some cfg →
        cascades s.target_parameters "timestep" TIMESTEP cfg.timestep
        ∧ cascades s.target_parameters "frame_length" FRAME_LENGTH cfg.frame_length
        ∧ cascades s.target_parameters "langevin_friction" LANGEVIN_FRICTION
            cfg.langevin_friction
        ∧ cascades s.target_parameters "barostat_frequency" BAROSTAT_FREQUENCY
            cfg.barostat_frequency
        ∧ cascades s.target_parameters "checkpoint_length" CHECKPOINT_LENGTH
            cfg.checkpoint_length
        ∧ cascades s.target_parameters "save_state_length" SAVE_STATE_LENGTH
            cfg.save_state_length
        ∧ trajSel s.target_parameters cfg.traj_length)
      ∧ (∀ cfg, a.gmxCfg = Option.some cfg →
        cascades s.target_parameters "timestep" TIMESTEP cfg.timestep
        ∧ cascades s.target_parameters "frame_length" FRAME_LENGTH cfg.frame_length
        ∧ cascades s.target_parameters "barostat_constant" BAROSTAT_CONSTANT
            cfg.barostat_constant
        ∧ cascades s.target_parameters "thermostat_constant" THERMOSTAT_CONSTANT
            cfg.thermostat_constant
        ∧ trajSel s.target_parameters cfg.traj_length) := by
  by_cases hp : s.sim_platform = "gmx"
  · obtain ⟨L, T, P, hL, hT, hP, hshape⟩ :=
      productionStage_gmx_shape s fs _ _ _ _ (beq_iff_eq.mpr hp) acts h
    subst hshape
    intro a ha
    by_cases hchk : exists_and_not_empty fs (prodPfx ++ ".cpt") <;>
      simp only [hchk, Bool.false_eq_true, if_true, if_false, List.mem_singleton] at ha <;>
      subst ha <;>
      refine ⟨fun cfg heq => by simp [PBAction.openmmCfg] at heq,
        fun cfg heq => ?_⟩ <;>
      · simp only [PBAction.gmxCfg, Option.some.injEq] at heq
        subst heq
        exact ⟨paramOr_cascades _ _ _, paramOr_cascades _ _ _,
          paramOr_cascades _ _ _, paramOr_cascades _ _ _,
          trajSel_of_resolve s L hL⟩
  · obtain ⟨L, T, P, hL, hT, hP, hshape⟩ :=
      productionStage_openmm_shape s fs _ _ _ _ (beq_eq_false_iff_ne.mpr hp) acts h
    subst hshape
    intro a ha
    by_cases hchk : exists_and_not_empty fs (prodPfx ++ ".chk") <;>
      simp only [hchk, Bool.false_eq_true, if_true, if_false, List.mem_singleton] at ha <;>
      subst ha <;>
      refine ⟨fun cfg heq => ?_, fun cfg heq => by simp [PBAction.gmxCfg] at heq⟩ <;>
      · simp only [PBAction.openmmCfg, Option.some.injEq] at heq
        subst heq
        exact ⟨paramOr_cascades _ _ _, paramOr_cascades _ _ _,
          paramOr_cascades _ _ _, paramOr_cascades _ _ _,
          paramOr_cascades _ _ _, paramOr_cascades _ _ _,
          trajSel_of_resolve s L hL⟩

theorem minimizeStage_restraint_cascade (s : PBSystem) (fs : FS)
    (acts : List PBAction) (hp : s.sim_platform ≠ "gmx")
    (h : minimizeStage s fs = Except.ok acts) :
    ∀ a ∈ acts, ∀ r x, a.minimizeArgs = Option.some (r, x) →
      cascades s.target_parameters "restraint_energy_constant"
        RESTRAINT_ENERGY_CONSTANT r := by
  unfold minimizeStage at h
  by_cases h1 : (s.sim_platform != "gmx" && !(exists_and_not_empty fs s.minimized_pdb))
  · simp only [h1, if_pos] at h
    cases h
    intro a ha r x hax
    simp only [List.mem_singleton] at ha
    subst ha
    simp only [PBAction.minimizeArgs, Option.some.injEq, Prod.mk.injEq] at hax
    exact cascades_of_eq _ _ _ _ hax.1.symm
  · have h1f : (s.sim_platform != "gmx"
        && !(exists_and_not_empty fs s.minimized_pdb)) = false := by
      revert h1
      cases (s.sim_platform != "gmx" && !(exists_and_not_empty fs s.minimized_pdb)) <;> simp
    rw [if_neg (by simp [h1f])] at h
    have h2f : (s.sim_platform == "gmx"
        && !(exists_and_not_empty fs (s.setup_dir ++ "/confout.gro"))) = false := by
      have : (s.sim_platform == "gmx") = false := beq_eq_false_iff_ne.mpr hp
      simp [this]
    rw [if_neg (by simp [h2f])] at h
    cases h
    intro a ha
    simp at ha

/-- C3 counterexample: with the `solvent_padding` key absent from both
dictionaries, the value passed to `solvate` is `DISORDERED_SOLVENT_PADDING`
for one target and `SOLVENT_PADDING` for the other, depending on
`target_type`; no single global default constant corresponds to the
`solvent_padding` key. -/
theorem solvent_padding_not_single_default :
    (sW.target_parameters.find "solvent_padding" = Option.none)
    ∧ (sFolded.target_parameters.find "solvent_padding" = Option.none)
    ∧ (solvateStage sW [] = Except.ok
        [PBAction.solvate (Val.abstr 3) NONBONDED_CUTOFF VDW_SWITCH_WIDTH
          sW.protonated_pdb (sW.setup_pfx ++ "-solvated.pdb") sW.openmm_system
          sW.water_model sW.force_field_file sW.water_model_file
          DISORDERED_SOLVENT_PADDING sW.setup_pfx sW.sim_platform])
    ∧ (solvateStage sFolded [] = Except.ok
        [PBAction.solvate (Val.abstr 3) NONBONDED_CUTOFF VDW_SWITCH_WIDTH
          sFolded.protonated_pdb (sFolded.setup_pfx ++ "-solvated.pdb")
          sFolded.openmm_system sFolded.water_model sFolded.force_field_file
          sFolded.water_model_file SOLVENT_PADDING sFolded.setup_pfx
          sFolded.sim_platform])
    ∧ SOLVENT_PADDING ≠ DISORDERED_SOLVENT_PADDING :=
  ⟨rfl, rfl, rfl, rfl, by decide⟩

/-- C3 (amended): for each listed per-stage parameter, the value passed to
the stage is `target_parameters[key]` whenever the key is present, and the
single corresponding global default constant otherwise — except
`solvent_padding`, whose default is `SOLVENT_PADDING` when
`target_type == "folded"` and `DISORDERED_SOLVENT_PADDING` otherwise, and
`traj_length`, whose default is selected by `target_type`
(`PEPTIDE_TRAJ_LENGTH`/`FOLDED_TRAJ_LENGTH`/`DISORDERED_TRAJ_LENGTH`). -/
theorem parameter_cascade (s : PBSystem) (fs : FS) :
    (∀ acts, solvateStage s fs = Except.ok acts →
      ∀ a ∈ acts, ∀ nb vdw sp, a.solvateArgs = Option.some (nb, vdw, sp) →
        cascades s.target_parameters "nonbonded_cutoff" NONBONDED_CUTOFF nb
        ∧ cascades s.target_parameters "vdw_switch_width" VDW_SWITCH_WIDTH vdw
        ∧ (∀ v, s.target_parameters.find "solvent_padding" = Option.some v → sp = v)
        ∧ (s.target_parameters.find "solvent_padding" = Option.none →
            ∀ t, s.target_parameters.find "target_type" = Option.some t →
              sp = if t = Val.str "folded" then SOLVENT_PADDING
                   else DISORDERED_SOLVENT_PADDING))
    ∧ (s.sim_platform ≠ "gmx" →
        ∀ acts, minimizeStage s fs = Except.ok acts →
          ∀ a ∈ acts, ∀ r x, a.minimizeArgs = Option.some (r, x) →
            cascades s.target_parameters "restraint_energy_constant"
              RESTRAINT_ENERGY_CONSTANT r)
    ∧ (∀ eqPfx spPfx es acts, equilStage s fs eqPfx spPfx es = Except.ok acts →
        ∀ a ∈ acts,
          (∀ cfg, a = PBAction.start_from_pdb cfg →
            cascades s.target_parameters "equil_timestep" EQUIL_TIMESTEP cfg.timestep
            ∧ cascades s.target_parameters "equil_traj_length" EQUIL_TRAJ_LENGTH
                cfg.traj_length
            ∧ cascades s.target_parameters "equil_frame_length" EQUIL_FRAME_LENGTH
                cfg.frame_length
            ∧ cascades s.target_parameters "equil_langevin_friction"
                EQUIL_LANGEVIN_FRICTION cfg.langevin_friction
            ∧ cascades s.target_parameters "equil_barostat_frequency"
                EQUIL_BAROSTAT_FREQUENCY cfg.barostat_frequency)
          ∧ (∀ cfg, a = PBAction.gmx_run cfg →
            cascades s.target_parameters "equil_timestep" EQUIL_TIMESTEP cfg.timestep
            ∧ cascades s.target_parameters "equil_traj_length" EQUIL_TRAJ_LENGTH
                cfg.traj_length
            ∧ cascades s.target_parameters "equil_frame_length" EQUIL_FRAME_LENGTH
                cfg.frame_length
            ∧ cascades s.target_parameters "equil_barostat_constant"
                EQUIL_BAROSTAT_CONSTANT cfg.barostat_constant
            ∧ cascades s.target_parameters "equil_thermostat_constant"
                EQUIL_THERMOSTAT_CONSTANT cfg.thermostat_constant))
    ∧ (∀ prodPfx spPfx eqPfx es acts,
        productionStage s fs prodPfx spPfx eqPfx es = Except.ok acts →
        ∀ a ∈ acts,
          (∀ cfg, a.openmmCfg = Option.some cfg →
            cascades s.target_parameters "timestep" TIMESTEP cfg.timestep
            ∧ cascades s.target_parameters "frame_length" FRAME_LENGTH cfg.frame_length
            ∧ cascades s.target_parameters "langevin_friction" LANGEVIN_FRICTION
                cfg.langevin_friction
            ∧ cascades s.target_parameters "barostat_frequency" BAROSTAT_FREQUENCY
                cfg.barostat_frequency
            ∧ cascades s.target_parameters "checkpoint_length" CHECKPOINT_LENGTH
                cfg.checkpoint_length
            ∧ cascades s.target_parameters "save_state_length" SAVE_STATE_LENGTH
                cfg.save_state_length
            ∧ trajSel s.target_parameters cfg.traj_length)
          ∧ (∀ cfg, a.gmxCfg = Option.some cfg →
            cascades s.target_parameters "timestep" TIMESTEP cfg.timestep
            ∧ cascades s.target_parameters "frame_length" FRAME_LENGTH cfg.frame_length
            ∧ cascades s.target_parameters "barostat_constant" BAROSTAT_CONSTANT
                cfg.barostat_constant
            ∧ cascades s.target_parameters "thermostat_constant" THERMOSTAT_CONSTANT
                cfg.thermostat_constant
            ∧ trajSel s.target_parameters cfg.traj_length)) :=
  ⟨fun acts h => solvateStage_cascade s fs acts h,
   fun hp acts h => minimizeStage_restraint_cascade s fs acts hp h,
   fun eqPfx spPfx es acts h => equilStage_cascade s fs eqPfx spPfx es acts h,
   fun prodPfx spPfx eqPfx es acts h =>
     productionStage_cascade s fs prodPfx spPfx eqPfx es acts h⟩

theorem parameter_cascade_witness :
    (solvateStage sW [] = Except.ok
      [PBAction.solvate (Val.abstr 3) NONBONDED_CUTOFF VDW_SWITCH_WIDTH
        sW.protonated_pdb (sW.setup_pfx ++ "-solvated.pdb") sW.openmm_system
        sW.water_model sW.force_field_file sW.water_model_file
        DISORDERED_SOLVENT_PADDING sW.setup_pfx sW.sim_platform])
    ∧ (cascades sW.target_parameters "nonbonded_cutoff" NONBONDED_CUTOFF
          NONBONDED_CUTOFF
      ∧ cascades sW.target_parameters "vdw_switch_width" VDW_SWITCH_WIDTH
          VDW_SWITCH_WIDTH
      ∧ (∀ v, sW.target_parameters.find "solvent_padding" = Option.some v →
          DISORDERED_SOLVENT_PADDING = v)
      ∧ (sW.target_parameters.find "solvent_padding" = Option.none →
          ∀ t, sW.target_parameters.find "target_type" = Option.some t →
            DISORDERED_SOLVENT_PADDING =
              if t = Val.str "folded" then SOLVENT_PADDING
              else DISORDERED_SOLVENT_PADDING)) :=
  ⟨rfl, (parameter_cascade sW []).1 _ rfl _ (List.mem_singleton_self _)
    NONBONDED_CUTOFF VDW_SWITCH_WIDTH DISORDERED_SOLVENT_PADDING rfl⟩